import Mathlib

/-!
Shallow embedding of the layer-cache / map-data / corridor-router core of the
winter-injury-observatory service (src/api/cache.py, src/api/map_data.py,
src/api/routing.py), together with theorems settling the frozen claims.

Modelling conventions:
* Python floats are modelled as exact rationals (ℚ); the arithmetic in the
  embedded code (TTL comparisons, edge-weight formulas, clamping) is exact,
  so ℚ is a faithful carrier for every property proved here.
* Wall-clock reads (time.time(), time.perf_counter()) are passed in as an
  explicit `now` argument; the `duration_ms` metadata field, which is a pure
  timing measurement, is not modelled.
* JSON-ish Python dict payloads are modelled by the `Json` inductive below;
  dict key lookup is association-list lookup (keys built by the code are
  distinct).
* Fallible Python code is modelled with `Except`/`Option`; an exception that
  propagates is an `Except.error`.
-/

namespace Observatory

/-- JSON-like payload values (the `Dict[str, Any]` world of the source). -/
inductive Json where
  | null : Json
  | bool (b : Bool) : Json
  | num (q : ℚ) : Json
  | str (s : String) : Json
  | arr (xs : List Json) : Json
  | obj (fields : List (String × Json)) : Json


/-- Python dict `.get(key)` on an association list: first binding wins
(the dicts built by the embedded code never repeat keys). -/
def lookupJ (fields : List (String × Json)) (key : String) : Option Json :=
  match fields with
  | [] => none
  | (k, v) :: rest => if k = key then some v else lookupJ rest key

/-- Python truthiness for the modelled values (`bool(x)`):
None, False, 0, empty string/list/dict are falsy. -/
def pyTruthy : Json → Bool
  | Json.null => false
  | Json.bool b => b
  | Json.num q => q ≠ 0
  | Json.str s => s ≠ ""
  | Json.arr xs => ¬ xs.isEmpty
  | Json.obj fields => ¬ fields.isEmpty

/-- Python `min(a, b)` (stated with an explicit comparison so that concrete
runs reduce inside the kernel). -/
def pyMin (a b : ℚ) : ℚ :=
  if a ≤ b then a else b

/-- Python `max(a, b)`. -/
def pyMax (a b : ℚ) : ℚ :=
  if b ≤ a then a else b

/-- Strip leading and trailing whitespace from a character list
(Python `str.strip()` / the core of `String.trim`, restated with structural
recursion so that concrete runs reduce inside the kernel). -/
def trimChars (cs : List Char) : List Char :=
  ((cs.dropWhile Char.isWhitespace).reverse.dropWhile Char.isWhitespace).reverse

/-- ASCII lowercase of a character list (`str.lower()`). -/
def lowerChars (cs : List Char) : List Char :=
  cs.map Char.toLower

/-- Python `str.split()` with no argument: whitespace-separated words,
empties dropped.  The accumulator carries the current word reversed. -/
def splitWsAux : List Char → List Char → List String
  | [], acc => if acc.isEmpty then [] else [String.mk acc.reverse]
  | c :: rest, acc =>
    if c.isWhitespace then
      if acc.isEmpty then splitWsAux rest []
      else String.mk acc.reverse :: splitWsAux rest []
    else splitWsAux rest (c :: acc)

/-- `" ".join(words)`. -/
def joinSpace : List String → String
  | [] => ""
  | [w] => w
  | w :: rest => w ++ " " ++ joinSpace rest

/-- ASCII uppercase of a string (`str.upper()`). -/
def upperStr (s : String) : String :=
  String.mk (s.data.map Char.toUpper)

/-- Value of a list of decimal digit characters; none if empty or non-digit. -/
def digitsVal : List Char → Option ℕ
  | [] => none
  | cs =>
    cs.foldl
      (fun acc c =>
        match acc with
        | none => none
        | some n => if c.isDigit then some (10 * n + (c.toNat - 48)) else none)
      (some 0)

/-- Parse a plain decimal literal `[sign] digits [. digits]` into a rational.
Python `float(str)` also accepts exponents / inf / nan / underscores; those
forms are outside this model (inf and nan are not rationals, and no embedded
code path produces them). -/
def parseDecFloat (s : String) : Option ℚ :=
  let core := fun (cs : List Char) (sign : ℚ) =>
    match cs.splitOn '.' with
    | [intPart] =>
      match digitsVal intPart with
      | some n => some (sign * (n : ℚ))
      | none => none
    | [intPart, fracPart] =>
      let intVal : Option ℕ := if intPart.isEmpty then some 0 else digitsVal intPart
      let fracVal : Option ℕ := if fracPart.isEmpty then some 0 else digitsVal fracPart
      if intPart.isEmpty ∧ fracPart.isEmpty then none
      else
        match intVal, fracVal with
        | some i, some f => some (sign * ((i : ℚ) + (f : ℚ) / ((10 : ℚ) ^ fracPart.length)))
        | _, _ => none
    | _ => none
  match trimChars s.data with
  | [] => none
  | '-' :: rest => core rest (-1)
  | '+' :: rest => core rest 1
  | cs => core cs 1

/-- Python `float(x)` on a modelled value: numbers pass through, booleans
become 0/1, decimal strings parse; anything else raises (modelled as none). -/
def pyFloat : Json → Option ℚ
  | Json.num q => some q
  | Json.bool b => some (if b then 1 else 0)
  | Json.str s => parseDecFloat s
  | _ => none

/-- Decimal-style rendering of the rational stand-in for a Python float
(used only inside `str()` renderings; no theorem depends on its exact text). -/
def qPyStr (q : ℚ) : String :=
  if q.den = 1 then toString q.num ++ ".0"
  else toString q.num ++ "/" ++ toString q.den

mutual

/-- Python `repr(x)` for modelled values (approximate for containers;
no theorem depends on its exact text). -/
def pyRepr : Json → String
  | Json.null => "None"
  | Json.bool true => "True"
  | Json.bool false => "False"
  | Json.num q => qPyStr q
  | Json.str s => "\x27" ++ s ++ "\x27"
  | Json.arr xs => "[" ++ pyReprList xs ++ "]"
  | Json.obj fields => "\x7b" ++ pyReprFields fields ++ "\x7d"

def pyReprList : List Json → String
  | [] => ""
  | [x] => pyRepr x
  | x :: rest => pyRepr x ++ ", " ++ pyReprList rest

def pyReprFields : List (String × Json) → String
  | [] => ""
  | [(k, v)] => "\x27" ++ k ++ "\x27: " ++ pyRepr v
  | (k, v) :: rest => "\x27" ++ k ++ "\x27: " ++ pyRepr v ++ ", " ++ pyReprFields rest

end

/-- Python `str(x)` for modelled values: strings unquoted, otherwise repr. -/
def pyStr : Json → String
  | Json.str s => s
  | j => pyRepr j

/-- Floor of a rational as an integer (q.den is positive, so floored
integer division of num by den is the mathematical floor). -/
def floorQ (q : ℚ) : ℤ :=
  Int.fdiv q.num (q.den : ℤ)

/-- Round a rational to the nearest integer, ties to even
(the rounding Python's round() uses). -/
def roundHalfEven (q : ℚ) : ℤ :=
  let f := floorQ q
  let r := q - (f : ℚ)
  if r < 1 / 2 then f
  else if 1 / 2 < r then f + 1
  else if f % 2 = 0 then f else f + 1

/-- Python `round(x, d)` on the rational float stand-in. -/
def roundTo (d : ℕ) (q : ℚ) : ℚ :=
  (roundHalfEven (q * (10 : ℚ) ^ d) : ℚ) / (10 : ℚ) ^ d

/-- Python `"%.1f"`-style formatting (one decimal place) used by the
narrative-guidance strings. -/
def fmt1 (q : ℚ) : String :=
  let scaled := roundHalfEven (q * 10)
  let sign := if scaled < 0 then "-" else ""
  let n := scaled.natAbs
  sign ++ toString (n / 10) ++ "." ++ toString (n % 10)

/-! ## src/api/cache.py -/

/-- `CacheEntry`: one cached object (`value`, `fetched_at`). -/
structure CacheEntry where
  value : Json
  fetched_at : ℚ


/-- `CacheEntry.age_seconds`: `max(0.0, time.time() - self.fetched_at)`;
the wall-clock read is the explicit `now`. -/
def CacheEntry.age_seconds (e : CacheEntry) (now : ℚ) : ℚ :=
  pyMax 0 (now - e.fetched_at)

/-- `CacheEntry.is_fresh`: `self.age_seconds() <= ttl_seconds`. -/
def CacheEntry.is_fresh (e : CacheEntry) (now : ℚ) (ttl_seconds : ℤ) : Bool :=
  decide (e.age_seconds now ≤ (ttl_seconds : ℚ))

/-- The `_stats` counter dict of `LayerCache`. -/
structure CacheStats where
  hits : ℕ
  misses : ℕ
  stale_hits : ℕ
  writes : ℕ
  refresh_failures : ℕ
deriving DecidableEq


/-- State of a `LayerCache` instance: TTL, the in-memory tier, the disk tier
(one JSON payload per sanitized key; the file content is the parsed JSON),
and the counters. The `threading.Lock` serializes the operations modelled
here as atomic state transitions. -/
structure CacheState where
  ttl_seconds : ℤ
  memory : List (String × CacheEntry)
  disk : List (String × Json)
  stats : CacheStats


/-- Replace the binding for `key` if present, else append (Python dict
assignment). -/
def insertAssoc {α : Type} (key : String) (v : α) : List (String × α) → List (String × α)
  | [] => [(key, v)]
  | (k, w) :: rest =>
    if k = key then (k, v) :: rest else (k, w) :: insertAssoc key v rest

/-- Association-list lookup (Python dict `.get`). -/
def lookupAssoc {α : Type} (key : String) : List (String × α) → Option α
  | [] => none
  | (k, v) :: rest => if k = key then some v else lookupAssoc key rest

/-- `LayerCache._path_for_key`: any character outside `[A-Za-z0-9_-]`
becomes `_` (Lean's isAlphanum is the ASCII core of Python's isalnum). -/
def sanitizeKey (key : String) : String :=
  String.mk (key.data.map (fun c => if c.isAlphanum ∨ c = '-' ∨ c = '_' then c else '_'))

/-- `LayerCache._load_disk_entry`: parse the on-disk payload; any shape
problem (non-dict payload or value, unconvertible or non-positive
`fetched_at`) is swallowed by the `except` and treated as absent. -/
def load_disk_entry (s : CacheState) (key : String) : Option CacheEntry :=
  match lookupAssoc (sanitizeKey key) s.disk with
  | none => none
  | some content =>
    match content with
    | Json.obj fields =>
      let value := lookupJ fields "value"
      match pyFloat ((lookupJ fields "fetched_at").getD (Json.num 0)) with
      | none => none
      | some fa =>
        match value with
        | some (Json.obj vf) => if fa ≤ 0 then none else some ⟨Json.obj vf, fa⟩
        | _ => none
    | _ => none

/-- The freshness-metadata dict returned by `LayerCache.get` / `set`. -/
structure GetView where
  value : Json
  fresh : Bool
  stale : Bool
  age_seconds : ℚ
  fetched_at : ℚ
  source : String


/-- Build the metadata view `get` returns for a found entry. -/
def entryView (e : CacheEntry) (now : ℚ) (fresh : Bool) (source : String) : GetView :=
  { value := e.value
    fresh := fresh
    stale := !fresh
    age_seconds := roundTo 3 (e.age_seconds now)
    fetched_at := e.fetched_at
    source := source }

/-- The lookup phase of `LayerCache.get`: memory tier, then disk tier
(promoting a disk hit into memory).  Yields the found entry (if any), the
`source` tag, and the state after any promotion. -/
def probeEntry (s : CacheState) (key : String) :
    Option CacheEntry × String × CacheState :=
  match lookupAssoc key s.memory with
  | some e => (some e, "memory", s)
  | none =>
    match load_disk_entry s key with
    | some e => (some e, "disk", { s with memory := insertAssoc key e s.memory })
    | none => (none, "memory", s)

/-- `LayerCache.get(key, allow_stale)`: probe the tiers, then the
freshness check and counter bookkeeping as in the source.  Returns the
optional view and the successor cache state. -/
def cache_get (s : CacheState) (now : ℚ) (key : String) (allow_stale : Bool) :
    Option GetView × CacheState :=
  match probeEntry s key with
  | (none, _, s0) =>
    (none, { s0 with stats := { s0.stats with misses := s0.stats.misses + 1 } })
  | (some e, source, s0) =>
    if e.is_fresh now s.ttl_seconds then
      (some (entryView e now true source),
       { s0 with stats := { s0.stats with hits := s0.stats.hits + 1 } })
    else
      let s1 := { s0 with stats := { s0.stats with stale_hits := s0.stats.stale_hits + 1 } }
      if allow_stale then (some (entryView e now false source), s1)
      else (none, s1)

/-- Remove the binding for `key` (Python file deletion / a never-created
file; the association lists built here keep each key at most once). -/
def removeAssoc {α : Type} (key : String) : List (String × α) → List (String × α)
  | [] => []
  | (k, v) :: rest => if k = key then rest else (k, v) :: removeAssoc key rest

/-- Outcome model for the unguarded `path.write_text` call in
`LayerCache.set`.  `write_text` opens the file with truncation before
writing, so a raising write leaves the on-disk file for the sanitized key in
an unspecified state: `fails (some j)` models whatever (possibly truncated,
partial or corrupt) content it left behind — including the old content when
the open itself failed — and `fails none` models no file at all. -/
inductive DiskWrite where
  | succeeds
  | fails (residue : Option Json)

/-- `LayerCache.set(key, value)`: stores the fresh entry in memory and bumps
`writes` first; then attempts the disk write.  A failing disk write
propagates as an exception after the memory tier and the counter have
already been updated — mirroring that `path.write_text` is the last
statement before the return and is not guarded by any handler — and leaves
the disk tier at the sanitized key holding whatever residue the failed
truncating write produced. -/
def cache_set (s : CacheState) (now : ℚ) (key : String) (value : Json)
    (dw : DiskWrite) : Except String GetView × CacheState :=
  let entry : CacheEntry := ⟨value, now⟩
  let s1 : CacheState :=
    { s with
      memory := insertAssoc key entry s.memory
      stats := { s.stats with writes := s.stats.writes + 1 } }
  match dw with
  | DiskWrite.fails residue =>
    (Except.error "disk write error",
     { s1 with
       disk :=
         match residue with
         | some content => insertAssoc (sanitizeKey key) content s1.disk
         | none => removeAssoc (sanitizeKey key) s1.disk })
  | DiskWrite.succeeds =>
    let payload := Json.obj [("fetched_at", Json.num now), ("value", value)]
    let s2 := { s1 with disk := insertAssoc (sanitizeKey key) payload s1.disk }
    (Except.ok
      { value := value
        fresh := true
        stale := false
        age_seconds := 0
        fetched_at := now
        source := "live" }, s2)

/-- `LayerCache.mark_refresh_failure`. -/
def mark_refresh_failure (s : CacheState) : CacheState :=
  { s with stats := { s.stats with refresh_failures := s.stats.refresh_failures + 1 } }

/-- `LayerCache.stats`: snapshot of the counter set. -/
def cache_stats (s : CacheState) : CacheStats :=
  s.stats

/-! ## src/api/map_data.py

The raw upstream payload is an arbitrary JSON-like value.  Python's dynamic
attribute and iteration semantics are modelled explicitly, so the
normalizer can raise `AttributeError` / `TypeError` on malformed payload
shapes exactly where the unguarded `.get` calls and the `for` loop of the
source do. -/

/-- Exceptions raised inside the fetch/normalize pipeline, distinguished
the way Python's class hierarchy distinguishes them. -/
inductive PyError where
  | keyError (msg : String)
  | valueError (msg : String)
  | fetchError (msg : String)
  | typeError (msg : String)
  | attributeError (msg : String)
deriving DecidableEq

/-- `str(exc)` for the modelled exceptions (Python's `str` of a `KeyError`
wraps the key in quotes). -/
def pyErrMsg : PyError → String
  | PyError.keyError m => "\x27" ++ m ++ "\x27"
  | PyError.valueError m => m
  | PyError.fetchError m => m
  | PyError.typeError m => m
  | PyError.attributeError m => m

/-- Python `x.get(key, default)`: dict lookup on a dict, `AttributeError`
on anything else (Python's message also names the offending type). -/
def pyDictGet (j : Json) (key : String) (default : Json) : Except PyError Json :=
  match j with
  | Json.obj fields => Except.ok ((lookupJ fields key).getD default)
  | _ => Except.error (PyError.attributeError "object has no attribute get")

/-- Python `for x in j`: lists iterate their elements, strings their
one-character substrings, dicts their keys; other values raise
`TypeError`. -/
def pyIter : Json → Except PyError (List Json)
  | Json.arr xs => Except.ok xs
  | Json.str s => Except.ok (s.data.map (fun c => Json.str (String.mk [c])))
  | Json.obj fields => Except.ok (fields.map (fun kv => Json.str kv.1))
  | _ => Except.error (PyError.typeError "object is not iterable")

/-- Lift a pure per-dict property transform into the Python call semantics:
the five `_normalize_*_properties` staticmethods read their argument only
through `.get`, so on a dict they are total field renames and on a truthy
non-dict (which the `or \x7b\x7d` coalescing lets through) their first
`.get` raises `AttributeError`. -/
def liftTransform (t : List (String × Json) → List (String × Json)) :
    Json → Except PyError (List (String × Json))
  | Json.obj fields => Except.ok (t fields)
  | _ => Except.error (PyError.attributeError "object has no attribute get")

/-- The `x or \x7b\x7d` coalescing idiom: a falsy member becomes the empty
dict, a truthy member passes through unchanged. -/
def orEmptyDict (j : Json) : Json :=
  if pyTruthy j then j else Json.obj []

/-- One iteration of the `_normalize_collection` feature loop:
`Except.ok none` is `continue` (geometry kind not allowed), errors are the
raised `AttributeError`s of the unguarded `.get` calls. -/
def normalize_feature_step (allowed : List String)
    (transform : Json → Except PyError (List (String × Json)))
    (feature : Json) : Except PyError (Option Json) :=
  match pyDictGet feature "geometry" Json.null with
  | Except.error e => Except.error e
  | Except.ok g0 =>
    match pyDictGet (orEmptyDict g0) "type" Json.null with
    | Except.error e => Except.error e
    | Except.ok geom_type =>
      if (match geom_type with
          | Json.str ty => allowed.contains ty
          | _ => false) then
        match pyDictGet feature "properties" Json.null with
        | Except.error e => Except.error e
        | Except.ok p0 =>
          match transform (orEmptyDict p0) with
          | Except.error e => Except.error e
          | Except.ok normalized_props =>
            Except.ok
              (some (Json.obj
                [("type", Json.str "Feature"),
                 ("geometry", orEmptyDict g0),
                 ("properties", Json.obj normalized_props)]))
      else Except.ok none

/-- The `_normalize_collection` feature loop over the iterated elements,
in order; the first raised exception propagates. -/
def normalizeFeatures (allowed : List String)
    (transform : Json → Except PyError (List (String × Json))) :
    List Json → Except PyError (List Json)
  | [] => Except.ok []
  | f :: rest =>
    match normalize_feature_step allowed transform f with
    | Except.error e => Except.error e
    | Except.ok r? =>
      match normalizeFeatures allowed transform rest with
      | Except.error e => Except.error e
      | Except.ok rs =>
        Except.ok (match r? with | some j => j :: rs | none => rs)

/-- `MapDataService._normalize_collection`: reject the payload with
`ValueError` unless `raw_geojson.get("type")` is exactly the string
`FeatureCollection`, then loop over `raw_geojson.get("features", [])`
filtering by geometry kind and transforming properties.  The `.get` calls
and the loop follow Python semantics, so malformed shapes raise. -/
def normalize_collection (raw : Json) (allowed : List String)
    (transform : Json → Except PyError (List (String × Json))) : Except PyError Json :=
  match pyDictGet raw "type" Json.null with
  | Except.error e => Except.error e
  | Except.ok tag =>
    match tag with
    | Json.str t =>
      if t = "FeatureCollection" then
        match pyDictGet raw "features" (Json.arr []) with
        | Except.error e => Except.error e
        | Except.ok featuresJ =>
          match pyIter featuresJ with
          | Except.error e => Except.error e
          | Except.ok elems =>
            match normalizeFeatures allowed transform elems with
            | Except.error e => Except.error e
            | Except.ok normalized =>
              Except.ok
                (Json.obj
                  [("type", Json.str "FeatureCollection"),
                   ("features", Json.arr normalized)])
      else Except.error (PyError.valueError "Upstream payload is not a FeatureCollection")
    | _ => Except.error (PyError.valueError "Upstream payload is not a FeatureCollection")

/-- The member list of a dict value ([] for non-dicts). -/
def objFields : Json → List (String × Json)
  | Json.obj fields => fields
  | _ => []

/-- `f.get(key)` as a value, `None` default, for a dict `f`. -/
def memberOf (f : Json) (key : String) : Json :=
  (lookupJ (objFields f) key).getD Json.null

/-- Is a member value a dict or falsy?  The `or \x7b\x7d` coalescing turns
exactly these into dicts; a truthy non-dict member makes the subsequent
`.get` raise `AttributeError`. -/
def dictOrFalsy : Json → Bool
  | Json.obj _ => true
  | j => !pyTruthy j

/-- A well-shaped feature element: a dict whose geometry and properties
members (if any) are dicts or falsy. -/
def wellShapedFeature : Json → Bool
  | Json.obj fields =>
    dictOrFalsy ((lookupJ fields "geometry").getD Json.null) &&
    dictOrFalsy ((lookupJ fields "properties").getD Json.null)
  | _ => false

/-- A well-shaped raw payload: a dict whose features member (defaulting to
the empty list) is a list of well-shaped features. -/
def wellShapedRaw : Json → Bool
  | Json.obj fields =>
    match (lookupJ fields "features").getD (Json.arr []) with
    | Json.arr elems => elems.all wellShapedFeature
    | _ => false
  | _ => false

/-- The top-level type tag of a payload (`raw_geojson.get("type")` when the
payload is a dict). -/
def topLevelTag : Json → Option Json
  | Json.obj fields => lookupJ fields "type"
  | _ => none

/-- The feature elements of a well-shaped payload
(`raw_geojson.get("features", [])`). -/
def rawFeaturesList : Json → List Json
  | Json.obj fields =>
    match (lookupJ fields "features").getD (Json.arr []) with
    | Json.arr elems => elems
    | _ => []
  | _ => []

/-- Does a well-shaped feature's (or-\x7b\x7d) geometry carry a type tag in
the allowed set?  A missing or non-string tag never matches. -/
def geometryAllowed (allowed : List String) (f : Json) : Bool :=
  match (lookupJ (objFields (orEmptyDict (memberOf f "geometry"))) "type").getD
      Json.null with
  | Json.str ty => allowed.contains ty
  | _ => false

/-- The normalized feature built for an accepted well-shaped feature:
`type=Feature`, the (or-\x7b\x7d) geometry, and the transformed properties. -/
def normalizedFeature (t : List (String × Json) → List (String × Json))
    (f : Json) : Json :=
  Json.obj
    [("type", Json.str "Feature"),
     ("geometry", orEmptyDict (memberOf f "geometry")),
     ("properties", Json.obj (t (objFields (orEmptyDict (memberOf f "properties")))))]

/-- `props.get(key)` with Python's `None` default, as a Json value. -/
def propGet (props : List (String × Json)) (key : String) : Json :=
  (lookupJ props key).getD Json.null

/-- The field renames of `_normalize_neighborhood_properties` on a dict. -/
def neighborhood_properties_fields (props : List (String × Json)) :
    List (String × Json) :=
  [("neighborhood_name", propGet props "descriptiv"),
   ("neighborhood_number", propGet props "neighbourh"),
   ("description", propGet props "descriptio")]

/-- The field renames of `_normalize_sidewalk_properties` on a dict. -/
def sidewalk_properties_fields (props : List (String × Json)) :
    List (String × Json) :=
  [("feature", propGet props "feature"),
   ("segment_id", propGet props "id"),
   ("type", propGet props "type")]

/-- The field renames of `_normalize_winter_route_properties` on a dict. -/
def winter_route_properties_fields (props : List (String × Json)) :
    List (String × Json) :=
  [("route_id", propGet props "route_id"),
   ("route_number", propGet props "route"),
   ("priority", propGet props "priority"),
   ("route_status", propGet props "route_stat"),
   ("segment_status", propGet props "seg_stat"),
   ("district", propGet props "district"),
   ("road_on", propGet props "road_on"),
   ("road_from", propGet props "road_from"),
   ("road_to", propGet props "road_to"),
   ("last_updated", propGet props "last_updat"),
   ("serv_achieved", propGet props "serv_ach")]

/-- The field renames of `_normalize_trail_closure_properties` on a dict. -/
def trail_closure_properties_fields (props : List (String × Json)) :
    List (String × Json) :=
  [("id_number", propGet props "id_number"),
   ("location_name", propGet props "location_name"),
   ("closure_type", propGet props "type_of_closure"),
   ("activity_type", propGet props "activity_type"),
   ("duration", propGet props "duration"),
   ("start_date", propGet props "start_date"),
   ("end_date", propGet props "end_date"),
   ("details", propGet props "details"),
   ("link", propGet props "link"),
   ("date_updated", propGet props "date_updated")]

/-- The field renames of `_normalize_elevation_properties` on a dict:
coerce to float, `None` on failure or on a `None` input (the try/except in
the source). -/
def elevation_properties_fields (props : List (String × Json)) :
    List (String × Json) :=
  let elevation := propGet props "elevation"
  let coerced :=
    match elevation with
    | Json.null => Json.null
    | v =>
      match pyFloat v with
      | some q => Json.num q
      | none => Json.null
  [("elevation", coerced)]

/-- `MapDataService._normalize_neighborhood_properties` under Python call
semantics (raises `AttributeError` on a truthy non-dict input). -/
def normalize_neighborhood_properties : Json → Except PyError (List (String × Json)) :=
  liftTransform neighborhood_properties_fields

/-- `MapDataService._normalize_sidewalk_properties` under Python call
semantics. -/
def normalize_sidewalk_properties : Json → Except PyError (List (String × Json)) :=
  liftTransform sidewalk_properties_fields

/-- `MapDataService._normalize_winter_route_properties` under Python call
semantics. -/
def normalize_winter_route_properties : Json → Except PyError (List (String × Json)) :=
  liftTransform winter_route_properties_fields

/-- `MapDataService._normalize_trail_closure_properties` under Python call
semantics. -/
def normalize_trail_closure_properties : Json → Except PyError (List (String × Json)) :=
  liftTransform trail_closure_properties_fields

/-- `MapDataService._normalize_elevation_properties` under Python call
semantics. -/
def normalize_elevation_properties : Json → Except PyError (List (String × Json)) :=
  liftTransform elevation_properties_fields

/-- Modelled from the spec: `map_data.py` reads five dataset-identifier
constants from `OpenDataEdmontonClient`, but the provided source of
`data_connectors/open_data_edmonton.py` does not define them.  The spec only
requires each `LayerConfig` row to declare an external-dataset identifier,
so the identifiers are modelled as opaque distinct strings. -/
def NEIGHBORHOOD_BOUNDARIES_DATASET : String := "dataset:neighborhood-boundaries"

/-- Modelled from the spec: see `NEIGHBORHOOD_BOUNDARIES_DATASET`. -/
def CURB_SIDEWALK_DATASET : String := "dataset:curb-sidewalk"

/-- Modelled from the spec: see `NEIGHBORHOOD_BOUNDARIES_DATASET`. -/
def WINTER_ROUTE_STATUS_DATASET : String := "dataset:winter-route-status"

/-- Modelled from the spec: see `NEIGHBORHOOD_BOUNDARIES_DATASET`. -/
def TRAIL_CLOSURES_DATASET : String := "dataset:trail-closures"

/-- Modelled from the spec: see `NEIGHBORHOOD_BOUNDARIES_DATASET`. -/
def ELEVATION_SPOT_DATASET : String := "dataset:elevation-spot"

/-- One row of `MapDataService.LAYER_CONFIG`. -/
structure LayerConfigRow where
  dataset_id : String
  geometry_types : List String

/-- `MapDataService.LAYER_CONFIG`: the static layer table. -/
def LAYER_CONFIG : List (String × LayerConfigRow) :=
  [("neighborhoods",
    ⟨NEIGHBORHOOD_BOUNDARIES_DATASET, ["Polygon", "MultiPolygon"]⟩),
   ("sidewalks",
    ⟨CURB_SIDEWALK_DATASET, ["LineString", "MultiLineString"]⟩),
   ("winter_routes",
    ⟨WINTER_ROUTE_STATUS_DATASET, ["LineString", "MultiLineString"]⟩),
   ("trail_closures",
    ⟨TRAIL_CLOSURES_DATASET, ["Point", "LineString", "MultiLineString"]⟩),
   ("elevation_spots",
    ⟨ELEVATION_SPOT_DATASET, ["Point"]⟩)]

/-- The `transform_map` of `_normalize_layer`. -/
def transformFor (layer_key : String) :
    Option (Json → Except PyError (List (String × Json))) :=
  if layer_key = "neighborhoods" then some normalize_neighborhood_properties
  else if layer_key = "sidewalks" then some normalize_sidewalk_properties
  else if layer_key = "winter_routes" then some normalize_winter_route_properties
  else if layer_key = "trail_closures" then some normalize_trail_closure_properties
  else if layer_key = "elevation_spots" then some normalize_elevation_properties
  else none

/-- `MapDataService._normalize_layer`: look up the layer's allowed geometry
kinds and property transform, then normalize (the indexing operations raise
`KeyError` for an unknown key; every caller checks the key first). -/
def normalize_layer (layer_key : String) (raw : Json) : Except PyError Json :=
  match lookupAssoc layer_key LAYER_CONFIG, transformFor layer_key with
  | some config, some transform =>
    normalize_collection raw config.geometry_types transform
  | _, _ => Except.error (PyError.keyError layer_key)

/-- The external fetch collaborator (`client.get_dataset_geojson`), fallible:
dataset id to raw payload.  Its implementation lives outside the core. -/
def FetchClient : Type :=
  String → Except String Json

/-- `MapDataService._fetch_live_layer`: unknown keys raise `KeyError`; then
fetch, normalize, and treat an empty normalized feature list as an error. -/
def fetch_live_layer (client : FetchClient) (layer_key : String) : Except PyError Json :=
  match lookupAssoc layer_key LAYER_CONFIG with
  | none => Except.error (PyError.keyError ("Unknown layer key: " ++ layer_key))
  | some config =>
    match client config.dataset_id with
    | Except.error m => Except.error (PyError.fetchError m)
    | Except.ok geojson =>
      match normalize_layer layer_key geojson with
      | Except.error e => Except.error e
      | Except.ok normalized =>
        let featuresTruthy :=
          match normalized with
          | Json.obj fields => pyTruthy ((lookupJ fields "features").getD Json.null)
          | _ => false
        if featuresTruthy then Except.ok normalized
        else
          Except.error
            (PyError.valueError
              ("Layer \x27" ++ layer_key ++ "\x27 returned no features after normalization"))

/-- State of a `MapDataService`: its cache plus the per-layer error counter. -/
structure MapDataService where
  cache : CacheState
  layer_error_count : List (String × ℕ)

/-- `MapDataUnavailableError`. -/
inductive MapError where
  | unavailable (msg : String)
deriving DecidableEq

/-- The `meta` dict of a `get_layer` response (`duration_ms`, a pure timing
measurement, is not modelled). -/
structure LayerMeta where
  source : String
  cache_event : String
  stale : Bool
  age_seconds : ℚ
  fetched_at : ℚ
  ttl_seconds : ℤ
deriving DecidableEq

/-- A successful `get_layer` response. -/
structure LayerResult where
  layer : String
  data : Json
  meta : LayerMeta
  errors : List String

/-- `defaultdict(int)` increment of the per-layer error counter. -/
def bumpLayerError (svc : MapDataService) (layer_key : String) : MapDataService :=
  { svc with
    layer_error_count :=
      insertAssoc layer_key ((lookupAssoc layer_key svc.layer_error_count).getD 0 + 1)
        svc.layer_error_count }

/-- The initial cache query of `get_layer` (skipped under `force_refresh`). -/
def initialLookup (svc : MapDataService) (now : ℚ) (cache_key : String)
    (force_refresh : Bool) : Option GetView × MapDataService :=
  if force_refresh then (none, svc)
  else
    let (res, c) := cache_get svc.cache now cache_key true
    (res, { svc with cache := c })

/-- `stale_cache = cached if cached else self.cache.get(...)`: reuse the
first lookup's view when one exists, else query the cache again. -/
def staleFallbackLookup (svc : MapDataService) (now : ℚ) (cache_key : String)
    (cached : Option GetView) : Option GetView × MapDataService :=
  match cached with
  | some c => (some c, svc)
  | none =>
    let (res, c) := cache_get svc.cache now cache_key true
    (res, { svc with cache := c })

/-- The fresh-hit response of `get_layer`. -/
def hitResult (layer_key : String) (c : GetView) (ttl : ℤ) : LayerResult :=
  { layer := layer_key
    data := c.value
    meta :=
      { source := "cache"
        cache_event := "hit"
        stale := false
        age_seconds := c.age_seconds
        fetched_at := c.fetched_at
        ttl_seconds := ttl }
    errors := [] }

/-- The live-refresh response of `get_layer`. -/
def liveResult (layer_key : String) (live : GetView) (ttl : ℤ) : LayerResult :=
  { layer := layer_key
    data := live.value
    meta :=
      { source := "live"
        cache_event := "miss_refresh"
        stale := false
        age_seconds := live.age_seconds
        fetched_at := live.fetched_at
        ttl_seconds := ttl }
    errors := [] }

/-- The stale-served response of `get_layer`. -/
def staleResult (layer_key : String) (sc : GetView) (excMsg : String) (ttl : ℤ) :
    LayerResult :=
  { layer := layer_key
    data := sc.value
    meta :=
      { source := "cache"
        cache_event := "stale_served"
        stale := true
        age_seconds := sc.age_seconds
        fetched_at := sc.fetched_at
        ttl_seconds := ttl }
    errors := ["served stale cache because refresh failed: " ++ excMsg] }

/-- The bookkeeping prefix of the `except` branch of `get_layer`:
`mark_refresh_failure` plus the per-layer error counter bump. -/
def failedSvc (svc : MapDataService) (layer_key : String) : MapDataService :=
  bumpLayerError { svc with cache := mark_refresh_failure svc.cache } layer_key

/-- The `except` branch of `get_layer`: record the refresh failure, bump the
per-layer error counter, then serve the stale candidate or raise
`MapDataUnavailableError` naming the layer key. -/
def failPath (svc : MapDataService) (layer_key : String) (staleC : Option GetView)
    (excMsg : String) : Except MapError LayerResult × MapDataService :=
  match staleC with
  | some sc =>
    (Except.ok
      (staleResult layer_key sc excMsg (failedSvc svc layer_key).cache.ttl_seconds),
     failedSvc svc layer_key)
  | none =>
    (Except.error
      (MapError.unavailable
        ("Unable to fetch layer \x27" ++ layer_key ++ "\x27 and no stale cache available")),
     failedSvc svc layer_key)

/-- The `try` block of `get_layer`: live fetch, then cache write (whose disk
part may itself raise and fall into the `except` branch), else fail over. -/
def refreshPath (svc : MapDataService) (now : ℚ) (client : FetchClient)
    (layer_key cache_key : String) (dw : DiskWrite) (staleC : Option GetView) :
    Except MapError LayerResult × MapDataService :=
  match fetch_live_layer client layer_key with
  | Except.ok live_value =>
    match cache_set svc.cache now cache_key live_value dw with
    | (Except.ok live, c) =>
      (Except.ok (liveResult layer_key live c.ttl_seconds), { svc with cache := c })
    | (Except.error m, c) =>
      failPath { svc with cache := c } layer_key staleC m
  | Except.error e => failPath svc layer_key staleC (pyErrMsg e)

/-- `MapDataService.get_layer(layer_key, force_refresh)`. -/
def get_layer (svc : MapDataService) (now : ℚ) (client : FetchClient)
    (layer_key : String) (force_refresh : Bool) (dw : DiskWrite) :
    Except MapError LayerResult × MapDataService :=
  let cache_key := "layer::" ++ layer_key
  let (cached, svc1) := initialLookup svc now cache_key force_refresh
  match cached with
  | some c =>
    if c.fresh then (Except.ok (hitResult layer_key c svc1.cache.ttl_seconds), svc1)
    else
      let (staleC, svc2) := staleFallbackLookup svc1 now cache_key (some c)
      refreshPath svc2 now client layer_key cache_key dw staleC
  | none =>
    let (staleC, svc2) := staleFallbackLookup svc1 now cache_key none
    refreshPath svc2 now client layer_key cache_key dw staleC

/-- Is the initial cache lookup a fresh hit (`cached and cached["fresh"]`)? -/
def freshHit : Option GetView → Bool
  | some c => c.fresh
  | none => false

/-- The stale-candidate computation of `get_layer`: the initial lookup
followed by the `cached if cached else get` fallback. -/
def staleProbe (svc : MapDataService) (now : ℚ) (cache_key : String)
    (force_refresh : Bool) : Option GetView × MapDataService :=
  let st1 := initialLookup svc now cache_key force_refresh
  staleFallbackLookup st1.2 now cache_key st1.1

/-! ## src/api/routing.py

The router calls shapely for geometry predicates (`shape`, `is_empty`,
`is_valid`, `buffer(0)`, centroid distance, `touches`, `intersects`).
Geometry is therefore abstracted: `G` is the type of parsed shapes and a
`GeomApi G` supplies the library operations.  A feature's `geometry` member
is carried as the already-parsed shape (`shape` applied to a well-formed
GeoJSON dict); `none` models an absent/falsy geometry member. -/

/-- The shapely operations the router uses. `centroidDistDeg` is
`a.centroid.distance(b.centroid)` in degrees. -/
structure GeomApi (G : Type) where
  is_empty : G → Bool
  is_valid : G → Bool
  buffer0 : G → G
  centroidDistDeg : G → G → ℚ
  touches : G → G → Bool
  intersects : G → G → Bool

/-- A feature of the scored neighborhood collection handed to the router. -/
structure ScoredFeature (G : Type) where
  properties : Option (List (String × Json))
  geometry : Option G

/-- The scored neighborhood collection
(`neighborhood_feature_collection.get("features", [])`). -/
structure ScoredCollection (G : Type) where
  features : List (ScoredFeature G)

/-- `RouteInputError` vs. the conversion errors `float()` can raise. -/
inductive RouteError where
  | input (msg : String)
  | conversion (msg : String)
deriving DecidableEq

/-- `_canonical_name`: lowercase and collapse internal whitespace
(Lean's toLower/isWhitespace are the ASCII core of Python's). -/
def canonical_name (name : String) : String :=
  joinSpace (splitWsAux (lowerChars (trimChars name.data)) [])

/-- `_risk_level`: the four risk bands. -/
def risk_level (probability : ℚ) : String :=
  if probability < 0.3 then "low"
  else if probability < 0.6 then "medium"
  else if probability < 0.8 then "high"
  else "critical"

/-- One row produced by `_extract_neighborhood_rows`. -/
structure NeighborhoodRow (G : Type) where
  name : String
  canonical_name : String
  geometry : G
  probability : ℚ

/-- The body of the `_extract_neighborhood_rows` loop for one feature:
`Except.ok none` is `continue`, `Except.error` is a raised conversion
error from `float(...)`. -/
def extract_row {G : Type} (api : GeomApi G) (f : ScoredFeature G) :
    Except RouteError (Option (NeighborhoodRow G)) :=
  match lookupJ (f.properties.getD []) "neighborhood_name", f.geometry with
  | some nameJ, some g0 =>
    if pyTruthy nameJ then
      if api.is_empty g0 then Except.ok none
      else
        if api.is_empty (if api.is_valid g0 then g0 else api.buffer0 g0) then Except.ok none
        else
          match pyFloat ((lookupJ (f.properties.getD []) "probability").getD (Json.num 0.5)) with
          | none => Except.error (RouteError.conversion "could not convert to float")
          | some probability =>
            Except.ok
              (some
                { name := pyStr nameJ
                  canonical_name := canonical_name (pyStr nameJ)
                  geometry := if api.is_valid g0 then g0 else api.buffer0 g0
                  probability := pyMax 0 (pyMin 1 probability) })
    else Except.ok none
  | _, _ => Except.ok none

/-- `_extract_neighborhood_rows`: run the loop over all features in order. -/
def extract_neighborhood_rows {G : Type} (api : GeomApi G) :
    List (ScoredFeature G) → Except RouteError (List (NeighborhoodRow G))
  | [] => Except.ok []
  | f :: rest =>
    match extract_row api f with
    | Except.error e => Except.error e
    | Except.ok r? =>
      match extract_neighborhood_rows api rest with
      | Except.error e => Except.error e
      | Except.ok rs =>
        Except.ok (match r? with | some r => r :: rs | none => rs)

/-- `_centroid_distance_km`: flat 111 km-per-degree conversion. -/
def centroid_distance_km {G : Type} (api : GeomApi G)
    (a b : NeighborhoodRow G) : ℚ :=
  api.centroidDistDeg a.geometry b.geometry * 111

/-- Node attributes stored by `graph.add_node`. -/
structure NodeAttrs where
  canonical_name : String
  probability : ℚ
deriving DecidableEq

/-- An undirected networkx edge with its attribute dict
(`weight` is set only by `_apply_edge_weights`). -/
structure GraphEdge where
  src : String
  dst : String
  traversal_penalty : ℚ
  weight : Option ℚ
deriving DecidableEq

/-- The networkx graph: insertion-ordered nodes and edges. -/
structure NGraph where
  nodes : List (String × NodeAttrs)
  edges : List GraphEdge
deriving DecidableEq

/-- Does an edge connect the unordered pair `a, b`? -/
def edgeMatches (e : GraphEdge) (a b : String) : Bool :=
  (e.src = a ∧ e.dst = b) ∨ (e.src = b ∧ e.dst = a)

/-- `graph.add_node` (replacing the attributes of an existing node). -/
def add_node (g : NGraph) (name : String) (attrs : NodeAttrs) : NGraph :=
  { g with nodes := insertAssoc name attrs g.nodes }

/-- `graph.add_edge(a, b, traversal_penalty=p)`: update the existing
undirected edge's penalty, or append a new edge.  At every call site in the
router both endpoints are already nodes, matching networkx behaviour. -/
def add_edge (g : NGraph) (a b : String) (penalty : ℚ) : NGraph :=
  if g.edges.any (fun e => edgeMatches e a b) then
    { g with
      edges := g.edges.map (fun e =>
        if edgeMatches e a b then { e with traversal_penalty := penalty } else e) }
  else
    { g with edges := g.edges ++ [{ src := a, dst := b, traversal_penalty := penalty, weight := none }] }

/-- `graph.degree()` for one node (a self-loop counts twice, as in
networkx). -/
def degree (g : NGraph) (name : String) : ℕ :=
  g.edges.foldl
    (fun n e =>
      n + (if e.src = name then 1 else 0) + (if e.dst = name then 1 else 0)) 0

/-- `itertools.combinations(nodes, 2)` in order. -/
def pairCombos {α : Type} : List α → List (α × α)
  | [] => []
  | x :: rest => rest.map (fun y => (x, y)) ++ pairCombos rest

/-- The node-insertion loop of `build_neighborhood_graph`. -/
def addRowNodes {G : Type} (rows : List (NeighborhoodRow G)) : NGraph :=
  rows.foldl
    (fun g r => add_node g r.name ⟨r.canonical_name, r.probability⟩)
    { nodes := [], edges := [] }

/-- The body of the pairwise loop of `build_neighborhood_graph`: an edge for
a touching-or-intersecting pair, with
`traversal_penalty = 0.08 + min(0.9, distance_km * 0.06)`. -/
def adjacencyStep {G : Type} (api : GeomApi G) (g : NGraph)
    (lr : NeighborhoodRow G × NeighborhoodRow G) : NGraph :=
  if api.touches lr.1.geometry lr.2.geometry ∨
      api.intersects lr.1.geometry lr.2.geometry then
    add_edge g lr.1.name lr.2.name
      (0.08 + pyMin 0.9 (centroid_distance_km api lr.1 lr.2 * 0.06))
  else g

/-- The pairwise adjacency pass of `build_neighborhood_graph`. -/
def addAdjacencyEdges {G : Type} (api : GeomApi G) (g : NGraph)
    (rows : List (NeighborhoodRow G)) : NGraph :=
  (pairCombos rows).foldl (adjacencyStep api) g

/-- Python `min(candidates, key=distance-to-iso)`: first minimum wins. -/
def closestRow {G : Type} (api : GeomApi G) (iso : NeighborhoodRow G) :
    List (NeighborhoodRow G) → Option (NeighborhoodRow G)
  | [] => none
  | r :: rest =>
    some
      (rest.foldl
        (fun best cand =>
          if centroid_distance_km api iso cand < centroid_distance_km api iso best then cand
          else best)
        r)

/-- The row the `index` dict maps a name to (a dict comprehension keeps the
last row with each name). -/
def indexRow {G : Type} (rows : List (NeighborhoodRow G)) (name : String) :
    Option (NeighborhoodRow G) :=
  (rows.reverse).find? (fun r => r.name = name)

/-- The body of the `_fallback_connect_isolates` loop: connect one isolated
node to its nearest neighbor by centroid distance, with
`traversal_penalty = 0.16 + min(1.2, d * 0.08)`.  The `index` lookup cannot
miss (isolates are node names and nodes come from rows), so the impossible
miss is mapped to a no-op; `continue` on no candidates is the other no-op. -/
def isolateStep {G : Type} (api : GeomApi G) (rows : List (NeighborhoodRow G))
    (acc : NGraph) (isolated_name : String) : NGraph :=
  match indexRow rows isolated_name with
  | none => acc
  | some isolated_node =>
    match closestRow api isolated_node (rows.filter (fun r => r.name ≠ isolated_name)) with
    | none => acc
    | some closest =>
      add_edge acc isolated_name closest.name
        (0.16 + pyMin 1.2 (centroid_distance_km api isolated_node closest * 0.08))

/-- `_fallback_connect_isolates` proper: compute the isolate list once from
the post-pairwise graph, then run `isolateStep` over it. -/
def fallback_connect_isolates {G : Type} (api : GeomApi G) (g : NGraph)
    (rows : List (NeighborhoodRow G)) : NGraph :=
  if g.nodes.length ≤ 1 then g
  else
    ((g.nodes.filter (fun p => degree g p.1 = 0)).map (fun p => p.1)).foldl
      (isolateStep api rows) g

/-- `build_neighborhood_graph`. -/
def build_neighborhood_graph {G : Type} (api : GeomApi G)
    (c : ScoredCollection G) : Except RouteError NGraph :=
  match extract_neighborhood_rows api c.features with
  | Except.error e => Except.error e
  | Except.ok rows =>
    if rows.isEmpty then
      Except.error (RouteError.input "No neighborhood geometries available for routing.")
    else
      Except.ok (fallback_connect_isolates api (addAdjacencyEdges api (addRowNodes rows) rows) rows)

/-- `graph.nodes[name].get("probability", default)` (a missing node would be
a Python `KeyError`; it cannot occur at the embedded call sites). -/
def probOf (g : NGraph) (name : String) (default : ℚ) : ℚ :=
  ((lookupAssoc name g.nodes).map (fun a => a.probability)).getD default

/-- `_resolve_graph_node`: first node whose canonical name matches, else a
`RouteInputError`. -/
def resolve_graph_node (g : NGraph) (neighborhood_name : String) :
    Except RouteError String :=
  let canonical := canonical_name neighborhood_name
  match g.nodes.find? (fun p => p.2.canonical_name = canonical) with
  | some p => Except.ok p.1
  | none => Except.error (RouteError.input ("Unknown neighborhood: " ++ neighborhood_name))

/-- `_apply_edge_weights`:
`weight = traversal_penalty + 0.72 * averageOf(endpoint risks)`. -/
def apply_edge_weights (g : NGraph) : NGraph :=
  { g with
    edges := g.edges.map (fun e =>
      let left_risk := probOf g e.src 0.5
      let right_risk := probOf g e.dst 0.5
      let average_risk := (left_risk + right_risk) / 2
      { e with weight := some (e.traversal_penalty + 0.72 * average_risk) }) }

/-- Weighted neighbor list of a node (an absent `weight` attribute defaults
to 1, as in networkx; after `_apply_edge_weights` every edge has one). -/
def neighborsW (g : NGraph) (u : String) : List (String × ℚ) :=
  g.edges.foldr
    (fun e acc =>
      if e.src = u then (e.dst, e.weight.getD 1) :: acc
      else if e.dst = u then (e.src, e.weight.getD 1) :: acc
      else acc)
    []

/-- Tentative-distance table entry with the smallest distance among the
unvisited nodes (first minimum wins). -/
def pickMinUnvisited (dist : List (String × ℚ)) (visited : List String) :
    Option (String × ℚ) :=
  match dist.filter (fun p => ¬ visited.contains p.1) with
  | [] => none
  | p :: rest => some (rest.foldl (fun best cand => if cand.2 < best.2 then cand else best) p)

/-- One relaxation sweep of Dijkstra from a settled node `u`. -/
def relaxFrom (g : NGraph) (u : String) (du : ℚ)
    (st : List (String × ℚ) × List (String × String)) :
    List (String × ℚ) × List (String × String) :=
  (neighborsW g u).foldl
    (fun st vw =>
      let (dist, prev) := st
      let nd := du + vw.2
      match lookupAssoc vw.1 dist with
      | some dv => if nd < dv then (insertAssoc vw.1 nd dist, insertAssoc vw.1 u prev) else st
      | none => (insertAssoc vw.1 nd dist, insertAssoc vw.1 u prev))
    st

/-- The Dijkstra main loop, fuelled by the number of nodes. -/
def dijkstraLoop (g : NGraph) :
    ℕ → List (String × ℚ) → List (String × String) → List String →
    List (String × ℚ) × List (String × String)
  | 0, dist, prev, _ => (dist, prev)
  | fuel + 1, dist, prev, visited =>
    match pickMinUnvisited dist visited with
    | none => (dist, prev)
    | some (u, du) =>
      let (dist1, prev1) := relaxFrom g u du (dist, prev)
      dijkstraLoop g fuel dist1 prev1 (u :: visited)

/-- Rebuild the node sequence from the predecessor table. -/
def rebuildPath (prev : List (String × String)) (source : String) :
    ℕ → String → List String → Option (List String)
  | 0, _, _ => none
  | fuel + 1, current, acc =>
    if current = source then some (source :: acc)
    else
      match lookupAssoc current prev with
      | some p => rebuildPath prev source fuel p (current :: acc)
      | none => none

/-- `nx.shortest_path(graph, source, target, weight="weight")`: a
minimum-weight path, or `none` when target is unreachable
(`NetworkXNoPath`). -/
def shortest_path (g : NGraph) (source target : String) : Option (List String) :=
  if source = target then some [source]
  else
    let fuel := g.nodes.length + 1
    let (dist, prev) := dijkstraLoop g fuel [(source, 0)] [] []
    match lookupAssoc target dist with
    | none => none
    | some _ => rebuildPath prev source (fuel + 1) target []

/-- `_build_guidance`: the four-band narrative string. -/
def build_guidance (path : List String) (path_probabilities : List ℚ)
    (aggregate_risk : ℚ) : String :=
  let worst :=
    match path_probabilities with
    | [] => aggregate_risk
    | p :: rest => rest.foldl pyMax p
  let level := risk_level aggregate_risk
  if level = "critical" ∨ level = "high" then
    upperStr level ++ " corridor with peak segment risk " ++ fmt1 (worst * 100) ++
      "%. Prioritize mitigation and active travel advisories along this path."
  else if level = "medium" then
    "MEDIUM corridor risk (aggregate " ++ fmt1 (aggregate_risk * 100) ++
      "%). Maintain routine controls and re-check if weather intensity rises."
  else
    "LOW corridor risk (aggregate " ++ fmt1 (aggregate_risk * 100) ++ "%) across " ++
      toString path.length ++
      " neighborhoods. Current conditions are comparatively stable."

/-- One entry of `per_hop_risk_scores`. -/
structure HopScore where
  hop : ℕ
  neighborhood : String
  probability : ℚ
  risk_level : String
  step_weight : ℚ
deriving DecidableEq

/-- The corridor response dict.  `corridor_cost` is optional because the
same-origin/destination branch of the source builds its dict without that
key. -/
structure CorridorResult where
  from_neighborhood : String
  to_neighborhood : String
  ordered_neighborhoods : List String
  per_hop_risk_scores : List HopScore
  aggregate_corridor_risk : ℚ
  corridor_cost : Option ℚ
  narrative_guidance : String
deriving DecidableEq

/-- `graph[a][b].get("weight", 0.0)` for a path step (the edge exists for
every consecutive pair of a returned path). -/
def edgeWeightBetween (g : NGraph) (a b : String) : ℚ :=
  match g.edges.find? (fun e => edgeMatches e a b) with
  | some e => e.weight.getD 0
  | none => 0

/-- The hop loop of `compute_neighborhood_corridor`: per-hop records, the
probability list, and the list of step weights (`path_weights` collects the
unrounded weights; the records carry the 4-digit rounding). -/
def hopLoop (g : NGraph) :
    Option String → ℕ → List String → List HopScore × List ℚ × List ℚ
  | _, _, [] => ([], [], [])
  | prev?, index, node_name :: rest =>
    let probability := probOf g node_name 0.0
    let step_weight :=
      match prev? with
      | none => 0
      | some prev => edgeWeightBetween g prev node_name
    let tail := hopLoop g (some node_name) (index + 1) rest
    ({ hop := index + 1
       neighborhood := node_name
       probability := probability
       risk_level := risk_level probability
       step_weight := roundTo 4 step_weight } :: tail.1,
     probability :: tail.2.1,
     (match prev? with | none => tail.2.2 | some _ => step_weight :: tail.2.2))

/-- Sum of a list of rationals. -/
def sumQ (xs : List ℚ) : ℚ :=
  xs.foldl (fun a b => a + b) 0

/-- Python `max()` of a nonempty list (0 on the unreachable empty case). -/
def maxQ (xs : List ℚ) : ℚ :=
  match xs with
  | [] => 0
  | p :: rest => rest.foldl pyMax p

/-- `compute_neighborhood_corridor`. -/
def compute_neighborhood_corridor {G : Type} (api : GeomApi G)
    (c : ScoredCollection G) (from_neighborhood to_neighborhood : String) :
    Except RouteError CorridorResult :=
  match build_neighborhood_graph api c with
  | Except.error e => Except.error e
  | Except.ok g0 =>
    let g := apply_edge_weights g0
    match resolve_graph_node g from_neighborhood with
    | Except.error e => Except.error e
    | Except.ok from_node =>
      match resolve_graph_node g to_neighborhood with
      | Except.error e => Except.error e
      | Except.ok to_node =>
        if from_node = to_node then
          let probability := probOf g from_node 0.0
          Except.ok
            { from_neighborhood := from_node
              to_neighborhood := to_node
              ordered_neighborhoods := [from_node]
              per_hop_risk_scores :=
                [{ hop := 1
                   neighborhood := from_node
                   probability := probability
                   risk_level := risk_level probability
                   step_weight := 0 }]
              aggregate_corridor_risk := probability
              corridor_cost := none
              narrative_guidance := build_guidance [from_node] [probability] probability }
        else
          match shortest_path g from_node to_node with
          | none =>
            Except.error
              (RouteError.input
                ("No route available between \x27" ++ from_neighborhood ++ "\x27 and \x27" ++
                  to_neighborhood ++ "\x27."))
          | some path =>
            let hops := hopLoop g none 0 path
            let path_probabilities := hops.2.1
            let path_weights := hops.2.2
            let average_risk := sumQ path_probabilities / (path_probabilities.length : ℚ)
            let max_risk := maxQ path_probabilities
            let aggregate_corridor_risk := 0.6 * average_risk + 0.4 * max_risk
            Except.ok
              { from_neighborhood := from_node
                to_neighborhood := to_node
                ordered_neighborhoods := path
                per_hop_risk_scores := hops.1
                aggregate_corridor_risk := roundTo 6 aggregate_corridor_risk
                corridor_cost := some (roundTo 6 (sumQ path_weights))
                narrative_guidance :=
                  build_guidance path path_probabilities aggregate_corridor_risk }

/-! ## Claim fixtures and auxiliary notions -/

/-- One public cache operation, for stating lifetime invariants over
operation sequences. -/
inductive CacheOp where
  | getOp (now : ℚ) (key : String) (allow_stale : Bool)
  | setOp (now : ℚ) (key : String) (value : Json) (dw : DiskWrite)
  | markOp
  | statsOp

/-- State transition of one cache operation (`stats` reads a snapshot and
leaves the state unchanged). -/
def applyOp (s : CacheState) : CacheOp → CacheState
  | CacheOp.getOp now key allow_stale => (cache_get s now key allow_stale).2
  | CacheOp.setOp now key value dw => (cache_set s now key value dw).2
  | CacheOp.markOp => mark_refresh_failure s
  | CacheOp.statsOp => s

/-- Pointwise order on the counter set. -/
def statsLe (a b : CacheStats) : Prop :=
  a.hits ≤ b.hits ∧ a.misses ≤ b.misses ∧ a.stale_hits ≤ b.stale_hits ∧
    a.writes ≤ b.writes ∧ a.refresh_failures ≤ b.refresh_failures

/-- Identity property transform, for concrete witnesses. -/
def idTransform : List (String × Json) → List (String × Json) :=
  fun props => props

/-- A polygon feature accepted by the neighborhoods geometry filter. -/
def demoFeatureA : Json :=
  Json.obj
    [("geometry", Json.obj [("type", Json.str "Polygon")]),
     ("properties", Json.obj [("a", Json.num 1)])]

/-- A point feature dropped by the neighborhoods geometry filter; its
falsy properties member exercises the `or \x7b\x7d` coalescing. -/
def demoFeatureB : Json :=
  Json.obj
    [("geometry", Json.obj [("type", Json.str "Point")]),
     ("properties", Json.null)]

/-- A well-tagged, well-shaped two-feature raw payload. -/
def demoWellShapedRaw : Json :=
  Json.obj
    [("type", Json.str "FeatureCollection"),
     ("features", Json.arr [demoFeatureA, demoFeatureB])]

/-- A payload whose tag is the correct `FeatureCollection` but whose
features list holds a number: its `.get("geometry")` raises. -/
def demoMalformedRaw : Json :=
  Json.obj
    [("type", Json.str "FeatureCollection"),
     ("features", Json.arr [Json.num 1])]

/-- A one-node demo geometry world for router witnesses: geometry is opaque,
nothing touches, all shapes valid and nonempty, zero centroid distance. -/
def demoApi : GeomApi Unit :=
  { is_empty := fun _ => false
    is_valid := fun _ => true
    buffer0 := fun g => g
    centroidDistDeg := fun _ _ => 0
    touches := fun _ _ => false
    intersects := fun _ _ => false }

/-- A scored feature with no probability property. -/
def demoScoredNoProb : ScoredFeature Unit :=
  { properties := some [("neighborhood_name", Json.str "Alpha")]
    geometry := some () }

/-- A one-feature scored collection. -/
def demoScoredCollection : ScoredCollection Unit :=
  { features := [demoScoredNoProb] }

/-- The shape of every edge the pairwise pass produces: it joins two row
names and carries the distance-derived pairwise penalty for some row pair. -/
def pairwisePenaltyShape {G : Type} (api : GeomApi G)
    (rows : List (NeighborhoodRow G)) (e : GraphEdge) : Prop :=
  ∃ ra ∈ rows, ∃ rb ∈ rows,
    ((e.src = ra.name ∧ e.dst = rb.name) ∨ (e.src = rb.name ∧ e.dst = ra.name)) ∧
    e.traversal_penalty = 0.08 + pyMin 0.9 (centroid_distance_km api ra rb * 0.06)

/-- A two-node demo world where every pair of shapes touches, at zero
centroid distance. -/
def demoApiTouch : GeomApi Unit :=
  { is_empty := fun _ => false
    is_valid := fun _ => true
    buffer0 := fun g => g
    centroidDistDeg := fun _ _ => 0
    touches := fun _ _ => true
    intersects := fun _ _ => false }

/-- Scored feature Alpha with risk 0.22. -/
def demoScoredAlpha : ScoredFeature Unit :=
  { properties := some [("neighborhood_name", Json.str "Alpha"),
      ("probability", Json.num 0.22)]
    geometry := some () }

/-- Scored feature Beta with risk 0.4. -/
def demoScoredBeta : ScoredFeature Unit :=
  { properties := some [("neighborhood_name", Json.str "Beta"),
      ("probability", Json.num 0.4)]
    geometry := some () }

/-- A two-feature scored collection whose polygons touch. -/
def demoTwoCollection : ScoredCollection Unit :=
  { features := [demoScoredAlpha, demoScoredBeta] }

/-- The graph the router builds from `demoTwoCollection`. -/
def demoTwoGraph : NGraph :=
  { nodes := [("Alpha", ⟨"alpha", 0.22⟩), ("Beta", ⟨"beta", 0.4⟩)]
    edges := [{ src := "Alpha", dst := "Beta", traversal_penalty := 0.08,
                weight := none }] }

/-- The weighted Alpha–Beta edge:
`0.08 + 0.72 * ((0.22 + 0.4) / 2) = 0.3032`. -/
def demoWeightedEdge : GraphEdge :=
  { src := "Alpha", dst := "Beta", traversal_penalty := 0.08, weight := some 0.3032 }

/-- Projection of a corridor outcome onto the presence and value of the
`corridor_cost` member of the response dict. -/
def corridorCostOf (r : Except RouteError CorridorResult) : Option (Option ℚ) :=
  match r with
  | Except.ok res => some res.corridor_cost
  | Except.error _ => none

/-- The graph the router builds from the one-feature `demoScoredCollection`. -/
def demoOneGraph : NGraph :=
  { nodes := [("Alpha", ⟨"alpha", 0.5⟩)], edges := [] }

/-- A fresh service over an empty cache. -/
def demoSvc0 : MapDataService :=
  { cache := ⟨3600, [], [], ⟨0, 0, 0, 0, 0⟩⟩, layer_error_count := [] }

/-- A fetch collaborator whose upstream is down. -/
def demoFailClient : FetchClient :=
  fun _ => Except.error "upstream down"

/-! ## Supporting lemmas -/

theorem pyMax_zero_of_nonneg {x : ℚ} (h : 0 ≤ x) : pyMax 0 x = x := by
  unfold pyMax
  split
  · linarith
  · rfl

theorem clamp_mem (x : ℚ) :
    0 ≤ pyMax 0 (pyMin 1 x) ∧ pyMax 0 (pyMin 1 x) ≤ 1 := by
  unfold pyMin pyMax
  by_cases h1 : (1 : ℚ) ≤ x
  · rw [if_pos h1]
    norm_num
  · rw [if_neg h1]
    by_cases h0 : x ≤ 0
    · rw [if_pos h0]
      norm_num
    · rw [if_neg h0]
      constructor <;> linarith

theorem roundHalfEven_zero : roundHalfEven 0 = 0 := by
  unfold roundHalfEven floorQ
  norm_num

theorem roundTo_zero (d : ℕ) : roundTo d 0 = 0 := by
  unfold roundTo
  rw [zero_mul, roundHalfEven_zero]
  norm_num

theorem lookupAssoc_insertAssoc_self {α : Type} (key : String) (v : α)
    (l : List (String × α)) :
    lookupAssoc key (insertAssoc key v l) = some v := by
  induction l with
  | nil => simp [insertAssoc, lookupAssoc]
  | cons p rest ih =>
    obtain ⟨k, w⟩ := p
    by_cases hk : k = key
    · simp [insertAssoc, hk, lookupAssoc]
    · simp [insertAssoc, hk, lookupAssoc, ih]

theorem probeEntry_stats (s : CacheState) (key : String) :
    (probeEntry s key).2.2.stats = s.stats := by
  unfold probeEntry
  split
  · rfl
  · split
    · rfl
    · rfl

theorem probeEntry_ttl (s : CacheState) (key : String) :
    (probeEntry s key).2.2.ttl_seconds = s.ttl_seconds := by
  unfold probeEntry
  split
  · rfl
  · split
    · rfl
    · rfl

theorem age_eq_sub {e : CacheEntry} {now : ℚ} (h : e.fetched_at ≤ now) :
    e.age_seconds now = now - e.fetched_at := by
  unfold CacheEntry.age_seconds
  exact pyMax_zero_of_nonneg (by linarith)

/-! ## Claim theorems: cache -/

/-- C4: for a stored entry of age `a = now - fetched_at ≥ 0`, a stale-allowing
`get` reports `fresh = true` exactly when `a ≤ ttl` and `stale = true` exactly
when `a > ttl` (so an entry whose age equals the TTL is still fresh). -/
theorem C4_ttl_freshness_boundary (s : CacheState) (now : ℚ) (key : String)
    (e : CacheEntry) (hmem : lookupAssoc key s.memory = some e)
    (hage : e.fetched_at ≤ now) :
    ((cache_get s now key true).1.map GetView.fresh =
        some (decide (now - e.fetched_at ≤ (s.ttl_seconds : ℚ)))) ∧
    ((cache_get s now key true).1.map GetView.stale =
        some (decide ((s.ttl_seconds : ℚ) < now - e.fetched_at))) := by
  have hprobe : probeEntry s key = (some e, "memory", s) := by
    unfold probeEntry
    rw [hmem]
  have ha := age_eq_sub hage
  by_cases hf : now - e.fetched_at ≤ (s.ttl_seconds : ℚ)
  · have hfresh : e.is_fresh now s.ttl_seconds = true := by
      unfold CacheEntry.is_fresh
      rw [ha]
      exact decide_eq_true hf
    unfold cache_get
    rw [hprobe]
    simp only [hfresh, if_true, Option.map_some]
    constructor
    · rw [decide_eq_true hf]
      rfl
    · rw [decide_eq_false (not_lt.mpr hf)]
      rfl
  · have hfresh : e.is_fresh now s.ttl_seconds = false := by
      unfold CacheEntry.is_fresh
      rw [ha]
      exact decide_eq_false hf
    unfold cache_get
    rw [hprobe]
    simp only [hfresh, if_false, Bool.false_eq_true, Option.map_some]
    constructor
    · rw [decide_eq_false hf]
      rfl
    · rw [decide_eq_true (lt_of_not_ge hf)]
      rfl

/-- C4 witness: a concrete entry whose age exactly equals the TTL is
reported fresh (and not stale). -/
theorem C4_ttl_freshness_boundary_witness :
    ((cache_get ⟨3600, [("k", ⟨Json.obj [], 100⟩)], [], ⟨0, 0, 0, 0, 0⟩⟩
        3700 "k" true).1.map GetView.fresh = some true) ∧
    ((cache_get ⟨3600, [("k", ⟨Json.obj [], 100⟩)], [], ⟨0, 0, 0, 0, 0⟩⟩
        3700 "k" true).1.map GetView.stale = some false) := by
  have h := C4_ttl_freshness_boundary
    ⟨3600, [("k", ⟨Json.obj [], 100⟩)], [], ⟨0, 0, 0, 0, 0⟩⟩ 3700 "k"
    ⟨Json.obj [], 100⟩ (by with_unfolding_all rfl) (by with_unfolding_all decide)
  constructor
  · rw [h.1]
    with_unfolding_all decide
  · rw [h.2]
    with_unfolding_all decide

/-- C5: on a key holding a stale entry (in either tier), `get` with
`allow_stale = false` returns absent while `get` with `allow_stale = true`
returns the entry's value with `fresh = false`, `stale = true`; both calls
bump `stale_hits` exactly once and leave `misses` unchanged. -/
theorem C5_stale_entry_rejected_or_served (s : CacheState) (now : ℚ) (key : String)
    (e : CacheEntry) (hheld : (probeEntry s key).1 = some e)
    (hstale : ¬ e.age_seconds now ≤ (s.ttl_seconds : ℚ)) :
    (cache_get s now key false).1 = none ∧
    ((cache_get s now key true).1.map GetView.value = some e.value) ∧
    ((cache_get s now key true).1.map GetView.fresh = some false) ∧
    ((cache_get s now key true).1.map GetView.stale = some true) ∧
    (cache_get s now key false).2.stats.stale_hits = s.stats.stale_hits + 1 ∧
    (cache_get s now key true).2.stats.stale_hits = s.stats.stale_hits + 1 ∧
    (cache_get s now key false).2.stats.misses = s.stats.misses ∧
    (cache_get s now key true).2.stats.misses = s.stats.misses := by
  rcases hp : probeEntry s key with ⟨e?, src, s0⟩
  have hstats : s0.stats = s.stats := by
    have h := probeEntry_stats s key
    rw [hp] at h
    exact h
  rw [hp] at hheld
  simp only at hheld
  subst hheld
  have hfresh : e.is_fresh now s.ttl_seconds = false := by
    unfold CacheEntry.is_fresh
    exact decide_eq_false hstale
  unfold cache_get
  rw [hp]
  simp only [hfresh, Bool.false_eq_true, if_false, if_true, Option.map_some, entryView,
    hstats]
  refine ⟨?_, ?_, ?_, ?_, ?_, ?_, ?_, ?_⟩ <;> trivial

/-- C5 witness: a concrete stale memory entry (age 10 > ttl 1). -/
theorem C5_stale_entry_rejected_or_served_witness :
    (cache_get ⟨1, [("k", ⟨Json.bool true, 100⟩)], [], ⟨0, 0, 0, 0, 0⟩⟩
        110 "k" false).1 = none ∧
    ((cache_get ⟨1, [("k", ⟨Json.bool true, 100⟩)], [], ⟨0, 0, 0, 0, 0⟩⟩
        110 "k" true).1.map GetView.value = some (Json.bool true)) := by
  have h := C5_stale_entry_rejected_or_served
    ⟨1, [("k", ⟨Json.bool true, 100⟩)], [], ⟨0, 0, 0, 0, 0⟩⟩ 110 "k"
    ⟨Json.bool true, 100⟩ (by with_unfolding_all rfl) (by with_unfolding_all decide)
  exact ⟨h.1, h.2.1⟩

theorem statsLe_refl (a : CacheStats) : statsLe a a :=
  ⟨le_refl _, le_refl _, le_refl _, le_refl _, le_refl _⟩

theorem statsLe_trans {a b c : CacheStats} (h1 : statsLe a b) (h2 : statsLe b c) :
    statsLe a c :=
  ⟨le_trans h1.1 h2.1, le_trans h1.2.1 h2.2.1, le_trans h1.2.2.1 h2.2.2.1,
    le_trans h1.2.2.2.1 h2.2.2.2.1, le_trans h1.2.2.2.2 h2.2.2.2.2⟩

theorem applyOp_statsLe (s : CacheState) (op : CacheOp) :
    statsLe s.stats (applyOp s op).stats := by
  cases op with
  | getOp now key allow_stale =>
    show statsLe s.stats (cache_get s now key allow_stale).2.stats
    unfold cache_get
    rcases hp : probeEntry s key with ⟨e?, src, s0⟩
    have hstats : s0.stats = s.stats := by
      have h := probeEntry_stats s key
      rw [hp] at h
      exact h
    cases e? with
    | none =>
      simp only [statsLe, hstats]
      omega
    | some e =>
      by_cases hf : e.is_fresh now s.ttl_seconds
      · simp only [hf, if_true, statsLe, hstats]
        omega
      · simp only [hf, Bool.false_eq_true, if_false, statsLe, hstats]
        by_cases ha : allow_stale
        · simp only [ha, if_true]
          omega
        · simp only [ha, Bool.false_eq_true, if_false]
          omega
  | setOp now key value dw =>
    show statsLe s.stats (cache_set s now key value dw).2.stats
    unfold cache_set
    cases dw with
    | succeeds =>
      simp only [statsLe]
      omega
    | fails residue =>
      simp only [statsLe]
      cases residue <;> omega
  | markOp =>
    show statsLe s.stats (mark_refresh_failure s).stats
    unfold mark_refresh_failure
    simp only [statsLe]
    omega
  | statsOp => exact statsLe_refl _

/-- C8: across any sequence of cache operations, every counter of the stats
set is monotonically non-decreasing — no operation decreases or resets a
counter. -/
theorem C8_counters_monotone (s : CacheState) (ops : List CacheOp) :
    statsLe s.stats ((ops.foldl applyOp s).stats) := by
  induction ops generalizing s with
  | nil => exact statsLe_refl _
  | cons op rest ih =>
    exact statsLe_trans (applyOp_statsLe s op) (ih (applyOp s op))

/-- C1 counterexample: with a failing disk write, `set` propagates the
exception and does not return the freshly-flagged view, so the claim that a
disk write failure never makes `set` observably fail is false on this code. -/
theorem C1_counterexample_set_raises_on_disk_failure :
    (cache_set ⟨3600, [], [], ⟨0, 0, 0, 0, 0⟩⟩ 100 "k" (Json.obj [])
        (DiskWrite.fails none)).1 =
      Except.error "disk write error" ∧
    (cache_set ⟨3600, [], [], ⟨0, 0, 0, 0, 0⟩⟩ 100 "k" (Json.obj [])
        (DiskWrite.fails none)).1 ≠
      Except.ok
        { value := Json.obj []
          fresh := true
          stale := false
          age_seconds := 0
          fetched_at := 100
          source := "live" } := by
  have h1 : (cache_set ⟨3600, [], [], ⟨0, 0, 0, 0, 0⟩⟩ 100 "k" (Json.obj [])
      (DiskWrite.fails none)).1 = Except.error "disk write error" := by
    with_unfolding_all rfl
  refine ⟨h1, ?_⟩
  rw [h1]
  intro h
  exact Except.noConfusion h

/-- C1 (amended): when the disk tier write raises — whatever state the
failed truncating write leaves the on-disk file in — `set` has already
stored the entry in the memory tier and incremented `writes`, so a
subsequent `get` in the same process sees the new value fresh from memory;
but the exception propagates to the caller instead of the freshly-flagged
view being returned, so the operation does observably fail. -/
theorem C1_amended_set_updates_memory_before_disk_failure (s : CacheState)
    (now : ℚ) (key : String) (value : Json) (residue : Option Json)
    (httl : 0 ≤ s.ttl_seconds) :
    (cache_set s now key value (DiskWrite.fails residue)).1 =
      Except.error "disk write error" ∧
    lookupAssoc key (cache_set s now key value (DiskWrite.fails residue)).2.memory =
      some ⟨value, now⟩ ∧
    (cache_set s now key value (DiskWrite.fails residue)).2.stats.writes =
      s.stats.writes + 1 ∧
    ((cache_get (cache_set s now key value (DiskWrite.fails residue)).2 now key
        true).1.map GetView.value = some value) ∧
    ((cache_get (cache_set s now key value (DiskWrite.fails residue)).2 now key
        true).1.map GetView.fresh = some true) := by
  have hmem :
      lookupAssoc key (cache_set s now key value (DiskWrite.fails residue)).2.memory =
        some ⟨value, now⟩ :=
    lookupAssoc_insertAssoc_self key _ s.memory
  refine ⟨rfl, hmem, rfl, ?_⟩
  have hprobe :
      probeEntry (cache_set s now key value (DiskWrite.fails residue)).2 key =
        (some ⟨value, now⟩, "memory",
          (cache_set s now key value (DiskWrite.fails residue)).2) := by
    unfold probeEntry
    rw [hmem]
  have hfresh : CacheEntry.is_fresh ⟨value, now⟩ now
      (cache_set s now key value (DiskWrite.fails residue)).2.ttl_seconds = true := by
    unfold CacheEntry.is_fresh
    apply decide_eq_true
    have hzero : CacheEntry.age_seconds ⟨value, now⟩ now = 0 := by
      unfold CacheEntry.age_seconds
      simp only [sub_self]
      exact pyMax_zero_of_nonneg (le_refl 0)
    rw [hzero]
    show (0 : ℚ) ≤ ((s.ttl_seconds : ℤ) : ℚ)
    exact_mod_cast httl
  constructor
  · unfold cache_get
    rw [hprobe]
    simp only [hfresh, if_true]
    rfl
  · unfold cache_get
    rw [hprobe]
    simp only [hfresh, if_true]
    rfl

/-- C1 witness: the amended behaviour at a concrete state and input. -/
theorem C1_amended_witness :
    (0 : ℤ) ≤ 3600 ∧
    ((cache_set ⟨3600, [], [], ⟨0, 0, 0, 0, 0⟩⟩ 200 "k2" Json.null
        (DiskWrite.fails none)).1 = Except.error "disk write error" ∧
      lookupAssoc "k2" (cache_set ⟨3600, [], [], ⟨0, 0, 0, 0, 0⟩⟩ 200 "k2"
          Json.null (DiskWrite.fails none)).2.memory = some ⟨Json.null, 200⟩ ∧
      (cache_set ⟨3600, [], [], ⟨0, 0, 0, 0, 0⟩⟩ 200 "k2"
          Json.null (DiskWrite.fails none)).2.stats.writes =
        (⟨3600, [], [], ⟨0, 0, 0, 0, 0⟩⟩ : CacheState).stats.writes + 1 ∧
      ((cache_get (cache_set ⟨3600, [], [], ⟨0, 0, 0, 0, 0⟩⟩ 200 "k2"
          Json.null (DiskWrite.fails none)).2 200 "k2" true).1.map GetView.value =
        some Json.null) ∧
      ((cache_get (cache_set ⟨3600, [], [], ⟨0, 0, 0, 0, 0⟩⟩ 200 "k2"
          Json.null (DiskWrite.fails none)).2 200 "k2" true).1.map GetView.fresh =
        some true)) :=
  ⟨by decide,
    C1_amended_set_updates_memory_before_disk_failure
      ⟨3600, [], [], ⟨0, 0, 0, 0, 0⟩⟩ 200 "k2" Json.null none (by decide)⟩

/-! ## Claim theorems: normalizer -/

theorem pyDictGet_obj (fields : List (String × Json)) (key : String) (d : Json) :
    pyDictGet (Json.obj fields) key d = Except.ok ((lookupJ fields key).getD d) := rfl

theorem pyDictGet_orEmptyDict (j : Json) (hj : dictOrFalsy j = true)
    (key : String) (d : Json) :
    pyDictGet (orEmptyDict j) key d =
      Except.ok ((lookupJ (objFields (orEmptyDict j)) key).getD d) := by
  unfold orEmptyDict
  by_cases ht : pyTruthy j
  · rw [if_pos ht]
    cases j with
    | obj fields => rfl
    | null => simp [dictOrFalsy, ht] at hj
    | bool b => simp [dictOrFalsy, ht] at hj
    | num q => simp [dictOrFalsy, ht] at hj
    | str t => simp [dictOrFalsy, ht] at hj
    | arr xs => simp [dictOrFalsy, ht] at hj
  · rw [if_neg ht]
    rfl

theorem liftTransform_orEmptyDict (t : List (String × Json) → List (String × Json))
    (j : Json) (hj : dictOrFalsy j = true) :
    liftTransform t (orEmptyDict j) = Except.ok (t (objFields (orEmptyDict j))) := by
  unfold orEmptyDict
  by_cases ht : pyTruthy j
  · rw [if_pos ht]
    cases j with
    | obj fields => rfl
    | null => simp [dictOrFalsy, ht] at hj
    | bool b => simp [dictOrFalsy, ht] at hj
    | num q => simp [dictOrFalsy, ht] at hj
    | str t => simp [dictOrFalsy, ht] at hj
    | arr xs => simp [dictOrFalsy, ht] at hj
  · rw [if_neg ht]
    rfl

theorem step_wellShaped (allowed : List String)
    (t : List (String × Json) → List (String × Json)) (f : Json)
    (hf : wellShapedFeature f = true) :
    normalize_feature_step allowed (liftTransform t) f =
      Except.ok
        (if geometryAllowed allowed f then some (normalizedFeature t f) else none) := by
  cases f with
  | obj fields =>
    simp only [wellShapedFeature, Bool.and_eq_true] at hf
    obtain ⟨hg, hp⟩ := hf
    unfold normalize_feature_step
    simp only [pyDictGet_obj, pyDictGet_orEmptyDict _ hg, liftTransform_orEmptyDict t _ hp]
    unfold geometryAllowed normalizedFeature
    simp only [memberOf, objFields]
    split
    · rfl
    · rfl
  | null => simp [wellShapedFeature] at hf
  | bool b => simp [wellShapedFeature] at hf
  | num q => simp [wellShapedFeature] at hf
  | str s => simp [wellShapedFeature] at hf
  | arr xs => simp [wellShapedFeature] at hf

theorem normalizeFeatures_wellShaped (allowed : List String)
    (t : List (String × Json) → List (String × Json)) (fs : List Json)
    (hfs : fs.all wellShapedFeature = true) :
    normalizeFeatures allowed (liftTransform t) fs =
      Except.ok
        ((fs.filter (fun f => geometryAllowed allowed f)).map (normalizedFeature t)) := by
  induction fs with
  | nil => rfl
  | cons f rest ih =>
    rw [List.all_cons, Bool.and_eq_true] at hfs
    obtain ⟨hf, hrest⟩ := hfs
    unfold normalizeFeatures
    rw [step_wellShaped allowed t f hf, ih hrest]
    by_cases hgeo : geometryAllowed allowed f
    · simp [hgeo, List.filter_cons]
    · simp [hgeo, List.filter_cons]

/-- C6 counterexample: a payload whose top-level tag is exactly the string
`FeatureCollection`, yet the neighborhoods normalizer raises
(`AttributeError` from `feature.get` on a non-dict element) instead of
returning a collection — so a correct tag does not rule out an error. -/
theorem C6_counterexample_malformed_feature_raises :
    topLevelTag demoMalformedRaw = some (Json.str "FeatureCollection") ∧
    normalize_collection demoMalformedRaw ["Polygon", "MultiPolygon"]
        normalize_neighborhood_properties =
      Except.error (PyError.attributeError "object has no attribute get") := by
  exact ⟨rfl, by with_unfolding_all rfl⟩

/-- C6 amended: on well-shaped payloads — dict features whose geometry and
properties members are dicts or falsy — the normalizer errors exactly when
the top-level type tag is not the string `FeatureCollection`; otherwise it
returns the features whose geometry kind is in the allowed set, normalized
in input order, silently dropping the rest.  On malformed payloads with a
correct tag it may instead raise. -/
theorem C6_amended_normalizer (raw : Json) (allowed : List String)
    (t : List (String × Json) → List (String × Json))
    (hws : wellShapedRaw raw = true) :
    (topLevelTag raw = some (Json.str "FeatureCollection") →
      normalize_collection raw allowed (liftTransform t) =
        Except.ok
          (Json.obj
            [("type", Json.str "FeatureCollection"),
             ("features",
              Json.arr
                (((rawFeaturesList raw).filter (fun f => geometryAllowed allowed f)).map
                  (normalizedFeature t)))])) ∧
    (topLevelTag raw ≠ some (Json.str "FeatureCollection") →
      normalize_collection raw allowed (liftTransform t) =
        Except.error (PyError.valueError "Upstream payload is not a FeatureCollection")) := by
  cases raw with
  | obj fields =>
    simp only [wellShapedRaw] at hws
    rcases hfj : (lookupJ fields "features").getD (Json.arr []) with _ | b | q | st | elems | ofs
    rotate_left 4
    · rw [hfj] at hws
      constructor
      · intro htag
        simp only [topLevelTag] at htag
        unfold normalize_collection
        simp only [pyDictGet_obj, htag, Option.getD_some, hfj, pyIter]
        rw [normalizeFeatures_wellShaped allowed t elems hws]
        simp [rawFeaturesList, hfj]
      · intro htag
        simp only [topLevelTag] at htag
        unfold normalize_collection
        simp only [pyDictGet_obj]
        cases htt : lookupJ fields "type" with
        | none => rfl
        | some j =>
          rw [htt] at htag
          cases j with
          | str ty =>
            have hty : ¬ ty = "FeatureCollection" := fun he => htag (by rw [he])
            simp only [Option.getD_some]
            rw [if_neg hty]
          | null => rfl
          | bool b => rfl
          | num q => rfl
          | arr xs => rfl
          | obj gfs => rfl
    all_goals
      rw [hfj] at hws
      simp at hws
  | null => simp [wellShapedRaw] at hws
  | bool b => simp [wellShapedRaw] at hws
  | num q => simp [wellShapedRaw] at hws
  | str st => simp [wellShapedRaw] at hws
  | arr xs => simp [wellShapedRaw] at hws

/-- C6 witness: a concrete well-shaped, well-tagged payload on which the
polygon survives, the point is dropped, and no error is raised. -/
theorem C6_amended_normalizer_witness :
    wellShapedRaw demoWellShapedRaw = true ∧
    topLevelTag demoWellShapedRaw = some (Json.str "FeatureCollection") ∧
    normalize_collection demoWellShapedRaw ["Polygon", "MultiPolygon"]
        (liftTransform idTransform) =
      Except.ok
        (Json.obj
          [("type", Json.str "FeatureCollection"),
           ("features", Json.arr [normalizedFeature idTransform demoFeatureA])]) := by
  refine ⟨by with_unfolding_all rfl, rfl, ?_⟩
  have h :=
    (C6_amended_normalizer demoWellShapedRaw ["Polygon", "MultiPolygon"] idTransform
      (by with_unfolding_all rfl)).1 rfl
  rw [h]
  with_unfolding_all rfl

/-! ## Claim theorems: router node extraction -/

theorem mem_insertAssoc {α : Type} (key : String) (v : α) (l : List (String × α)) :
    ∀ p ∈ insertAssoc key v l, p = (key, v) ∨ p ∈ l := by
  induction l with
  | nil =>
    intro p hp
    simp [insertAssoc] at hp
    left
    exact hp
  | cons q rest ih =>
    intro p hp
    obtain ⟨k, w⟩ := q
    unfold insertAssoc at hp
    by_cases hk : k = key
    · rw [if_pos hk] at hp
      rcases List.mem_cons.mp hp with h | h
      · left
        rw [h, hk]
      · right
        exact List.mem_cons_of_mem _ h
    · rw [if_neg hk] at hp
      rcases List.mem_cons.mp hp with h | h
      · right
        rw [h]
        exact List.mem_cons_self _ _
      · rcases ih p h with h' | h'
        · left
          exact h'
        · right
          exact List.mem_cons_of_mem _ h'

theorem lookupAssoc_mem {α : Type} (k : String) (v : α) :
    ∀ l : List (String × α), lookupAssoc k l = some v → (k, v) ∈ l := by
  intro l
  induction l with
  | nil => intro h; simp [lookupAssoc] at h
  | cons q rest ih =>
    obtain ⟨k', w⟩ := q
    intro h
    unfold lookupAssoc at h
    by_cases hk : k' = k
    · rw [if_pos hk] at h
      injection h with h
      rw [← hk, ← h]
      exact List.mem_cons_self _ _
    · rw [if_neg hk] at h
      exact List.mem_cons_of_mem _ (ih h)

theorem extract_row_prob_bounds {G : Type} (api : GeomApi G) (f : ScoredFeature G)
    (r : NeighborhoodRow G) (h : extract_row api f = Except.ok (some r)) :
    0 ≤ r.probability ∧ r.probability ≤ 1 := by
  unfold extract_row at h
  repeat' split at h
  any_goals exact Except.noConfusion h
  any_goals exact Option.noConfusion (Except.ok.inj h)
  all_goals
    injection h with h1
    injection h1 with h2
    subst h2
    exact clamp_mem _

theorem extract_row_default_prob {G : Type} (api : GeomApi G) (f : ScoredFeature G)
    (r : NeighborhoodRow G)
    (hmissing : lookupJ (f.properties.getD []) "probability" = none)
    (h : extract_row api f = Except.ok (some r)) :
    r.probability = 0.5 := by
  unfold extract_row at h
  rw [hmissing] at h
  repeat' split at h
  any_goals exact Except.noConfusion h
  any_goals exact Option.noConfusion (Except.ok.inj h)
  all_goals
    injection h with h1
    injection h1 with h2
    subst h2
    rename_i probability heq
    simp only [pyFloat, Option.getD, Option.some.injEq] at heq
    subst heq
    show pyMax 0 (pyMin 1 (0.5 : ℚ)) = 0.5
    unfold pyMin pyMax
    norm_num

theorem extract_rows_prob_bounds {G : Type} (api : GeomApi G)
    (fs : List (ScoredFeature G)) (rows : List (NeighborhoodRow G))
    (h : extract_neighborhood_rows api fs = Except.ok rows) :
    ∀ r ∈ rows, 0 ≤ r.probability ∧ r.probability ≤ 1 := by
  induction fs generalizing rows with
  | nil =>
    unfold extract_neighborhood_rows at h
    injection h with h
    subst h
    intro r hr
    cases hr
  | cons f rest ih =>
    unfold extract_neighborhood_rows at h
    rcases hrow : extract_row api f with e | r?
    · rw [hrow] at h
      simp at h
    · rw [hrow] at h
      rcases hrec : extract_neighborhood_rows api rest with e2 | rs
      · rw [hrec] at h
        simp at h
      · rw [hrec] at h
        injection h with h
        subst h
        intro r hr
        cases r? with
        | none => exact ih rs hrec r hr
        | some r0 =>
          rcases List.mem_cons.mp hr with hEq | hMem
          · subst hEq
            exact extract_row_prob_bounds api f r hrow
          · exact ih rs hrec r hMem

theorem foldl_nodes_eq {α : Type} (f : NGraph → α → NGraph)
    (hf : ∀ g x, (f g x).nodes = g.nodes) (l : List α) :
    ∀ g : NGraph, (l.foldl f g).nodes = g.nodes := by
  induction l with
  | nil => intro g; rfl
  | cons x rest ih =>
    intro g
    rw [List.foldl_cons, ih, hf]

theorem add_edge_nodes (g : NGraph) (a b : String) (p : ℚ) :
    (add_edge g a b p).nodes = g.nodes := by
  unfold add_edge
  split
  · rfl
  · rfl

theorem addAdjacencyEdges_nodes {G : Type} (api : GeomApi G) (g : NGraph)
    (rows : List (NeighborhoodRow G)) :
    (addAdjacencyEdges api g rows).nodes = g.nodes := by
  unfold addAdjacencyEdges
  apply foldl_nodes_eq
  intro g' lr
  unfold adjacencyStep
  split
  · exact add_edge_nodes _ _ _ _
  · rfl

theorem fallback_nodes {G : Type} (api : GeomApi G) (g : NGraph)
    (rows : List (NeighborhoodRow G)) :
    (fallback_connect_isolates api g rows).nodes = g.nodes := by
  unfold fallback_connect_isolates
  split
  · rfl
  · apply foldl_nodes_eq
    intro g' iso
    unfold isolateStep
    split
    · rfl
    · split
      · rfl
      · exact add_edge_nodes _ _ _ _

theorem addNode_foldl_bounds {G : Type} :
    ∀ (rows : List (NeighborhoodRow G)) (g : NGraph),
      (∀ r ∈ rows, 0 ≤ r.probability ∧ r.probability ≤ 1) →
      (∀ p ∈ g.nodes, 0 ≤ p.2.probability ∧ p.2.probability ≤ 1) →
      ∀ p ∈ (rows.foldl
          (fun g r => add_node g r.name ⟨r.canonical_name, r.probability⟩) g).nodes,
        0 ≤ p.2.probability ∧ p.2.probability ≤ 1 := by
  intro rows
  induction rows with
  | nil => intro g _ hg; exact hg
  | cons r rest ih =>
    intro g hrows hg
    rw [List.foldl_cons]
    apply ih _ (fun r' hr' => hrows r' (List.mem_cons_of_mem _ hr'))
    intro p hp
    unfold add_node at hp
    rcases mem_insertAssoc _ _ _ p hp with h | h
    · rw [h]
      exact hrows r (List.mem_cons_self _ _)
    · exact hg p h

theorem build_nodes_bounds {G : Type} (api : GeomApi G) (c : ScoredCollection G)
    (g : NGraph) (hb : build_neighborhood_graph api c = Except.ok g) :
    ∀ p ∈ g.nodes, 0 ≤ p.2.probability ∧ p.2.probability ≤ 1 := by
  unfold build_neighborhood_graph at hb
  rcases hrows : extract_neighborhood_rows api c.features with e | rows
  · rw [hrows] at hb
    simp at hb
  · rw [hrows] at hb
    by_cases hemp : rows.isEmpty
    · simp [hemp] at hb
    · simp only [hemp, Bool.false_eq_true, if_false, Except.ok.injEq] at hb
      subst hb
      intro p hp
      rw [fallback_nodes, addAdjacencyEdges_nodes] at hp
      exact addNode_foldl_bounds rows { nodes := [], edges := [] }
        (extract_rows_prob_bounds api c.features rows hrows)
        (fun q hq => absurd hq (by simp)) p hp

/-- C9: every row the extractor accepts carries a clamped probability in
[0, 1]; a feature with no probability property yields probability 0.5; and
hence every node of a built corridor graph carries a risk probability in
[0, 1]. -/
theorem C9_node_probability_in_unit_interval {G : Type} (api : GeomApi G)
    (c : ScoredCollection G) :
    (∀ f r, extract_row api f = Except.ok (some r) →
      0 ≤ r.probability ∧ r.probability ≤ 1) ∧
    (∀ f r, lookupJ ((ScoredFeature.properties f).getD []) "probability" = none →
      extract_row api f = Except.ok (some r) → r.probability = 0.5) ∧
    (∀ g, build_neighborhood_graph api c = Except.ok g →
      ∀ p ∈ g.nodes, 0 ≤ p.2.probability ∧ p.2.probability ≤ 1) := by
  refine ⟨?_, ?_, ?_⟩
  · intro f r h
    exact extract_row_prob_bounds api f r h
  · intro f r hmissing h
    exact extract_row_default_prob api f r hmissing h
  · intro g hb
    exact build_nodes_bounds api c g hb

/-- C9 witness: the no-probability feature extracts with probability 0.5,
inside [0, 1]. -/
theorem C9_node_probability_witness :
    (extract_row demoApi demoScoredNoProb =
      Except.ok (some
        { name := "Alpha"
          canonical_name := "alpha"
          geometry := ()
          probability := 0.5 })) ∧
    ((0 : ℚ) ≤ 0.5 ∧ (0.5 : ℚ) ≤ 1) ∧
    ((0.5 : ℚ) = 0.5) := by
  have hrow : extract_row demoApi demoScoredNoProb =
      Except.ok (some
        { name := "Alpha"
          canonical_name := "alpha"
          geometry := ()
          probability := pyMax 0 (pyMin 1 0.5) }) := by
    with_unfolding_all rfl
  have hb := (C9_node_probability_in_unit_interval demoApi demoScoredCollection).1
    demoScoredNoProb _ hrow
  have hd := (C9_node_probability_in_unit_interval demoApi demoScoredCollection).2.1
    demoScoredNoProb _ (by with_unfolding_all rfl) hrow
  have hclamp : pyMax 0 (pyMin 1 (0.5 : ℚ)) = 0.5 := by
    unfold pyMin pyMax
    norm_num
  refine ⟨?_, ?_, rfl⟩
  · rw [hrow, hclamp]
  · rw [hclamp] at hb
    exact hb

/-! ## Claim theorems: router edge weights -/

theorem pyMin_nonneg {a b : ℚ} (ha : 0 ≤ a) (hb : 0 ≤ b) : 0 ≤ pyMin a b := by
  unfold pyMin
  split
  · exact ha
  · exact hb

theorem add_edge_all {P : GraphEdge → Prop} (g : NGraph) (a b : String) (p : ℚ)
    (hg : ∀ e ∈ g.edges, P e)
    (hupd : ∀ e ∈ g.edges, edgeMatches e a b = true →
      P { e with traversal_penalty := p })
    (hnew : P { src := a, dst := b, traversal_penalty := p, weight := none }) :
    ∀ e ∈ (add_edge g a b p).edges, P e := by
  unfold add_edge
  split
  · intro e he
    simp only [List.mem_map] at he
    obtain ⟨e0, he0, heq⟩ := he
    by_cases hm : edgeMatches e0 a b = true
    · rw [if_pos hm] at heq
      subst heq
      exact hupd e0 he0 hm
    · rw [if_neg hm] at heq
      subst heq
      exact hg e0 he0
  · intro e he
    rcases List.mem_append.mp he with h | h
    · exact hg e h
    · rw [List.mem_singleton.mp h]
      exact hnew

theorem pairCombos_mem {α : Type} (l : List α) :
    ∀ p ∈ pairCombos l, p.1 ∈ l ∧ p.2 ∈ l := by
  induction l with
  | nil => intro p hp; cases hp
  | cons x rest ih =>
    intro p hp
    unfold pairCombos at hp
    rcases List.mem_append.mp hp with h | h
    · obtain ⟨y, hy, heq⟩ := List.mem_map.mp h
      subst heq
      exact ⟨List.mem_cons_self _ _, List.mem_cons_of_mem _ hy⟩
    · obtain ⟨h1, h2⟩ := ih p h
      exact ⟨List.mem_cons_of_mem _ h1, List.mem_cons_of_mem _ h2⟩

theorem foldl_edges_eq {α : Type} (f : NGraph → α → NGraph)
    (hf : ∀ g x, (f g x).edges = g.edges) (l : List α) :
    ∀ g : NGraph, (l.foldl f g).edges = g.edges := by
  induction l with
  | nil => intro g; rfl
  | cons x rest ih =>
    intro g
    rw [List.foldl_cons, ih, hf]

theorem addRowNodes_edges {G : Type} (rows : List (NeighborhoodRow G)) :
    (addRowNodes rows).edges = [] := by
  unfold addRowNodes
  exact foldl_edges_eq
    (fun g r => add_node g r.name ⟨r.canonical_name, r.probability⟩)
    (fun g r => rfl) rows { nodes := [], edges := [] }

theorem foldl_edges_pred {α : Type} (P : GraphEdge → Prop) (f : NGraph → α → NGraph)
    (hf : ∀ g x, (∀ e ∈ g.edges, P e) → ∀ e ∈ (f g x).edges, P e) :
    ∀ (l : List α) (g : NGraph), (∀ e ∈ g.edges, P e) →
      ∀ e ∈ (l.foldl f g).edges, P e := by
  intro l
  induction l with
  | nil => intro g hg; exact hg
  | cons x rest ih =>
    intro g hg
    rw [List.foldl_cons]
    exact ih _ (hf g x hg)

theorem adjacencyStep_shape {G : Type} (api : GeomApi G)
    (rows : List (NeighborhoodRow G)) (g : NGraph)
    (lr : NeighborhoodRow G × NeighborhoodRow G) (hlr : lr.1 ∈ rows ∧ lr.2 ∈ rows)
    (hg : ∀ e ∈ g.edges, pairwisePenaltyShape api rows e) :
    ∀ e ∈ (adjacencyStep api g lr).edges, pairwisePenaltyShape api rows e := by
  unfold adjacencyStep
  split
  · apply add_edge_all g _ _ _ hg
    · intro e he hm
      refine ⟨lr.1, hlr.1, lr.2, hlr.2, ?_, rfl⟩
      have hm' : (e.src = lr.1.name ∧ e.dst = lr.2.name) ∨
          (e.src = lr.2.name ∧ e.dst = lr.1.name) := by
        simpa [edgeMatches] using hm
      exact hm'
    · exact ⟨lr.1, hlr.1, lr.2, hlr.2, Or.inl ⟨rfl, rfl⟩, rfl⟩
  · exact hg

theorem foldl_edges_pred_mem {α : Type} (P : GraphEdge → Prop)
    (f : NGraph → α → NGraph) :
    ∀ (l : List α),
      (∀ g x, x ∈ l → (∀ e ∈ g.edges, P e) → ∀ e ∈ (f g x).edges, P e) →
      ∀ g : NGraph, (∀ e ∈ g.edges, P e) → ∀ e ∈ (l.foldl f g).edges, P e := by
  intro l
  induction l with
  | nil => intro _ g hg; exact hg
  | cons x rest ih =>
    intro hf g hg
    rw [List.foldl_cons]
    exact ih (fun g' y hy => hf g' y (List.mem_cons_of_mem _ hy)) _
      (hf g x (List.mem_cons_self _ _) hg)

theorem addAdjacencyEdges_shape {G : Type} (api : GeomApi G)
    (rows : List (NeighborhoodRow G)) :
    ∀ e ∈ (addAdjacencyEdges api (addRowNodes rows) rows).edges,
      pairwisePenaltyShape api rows e := by
  unfold addAdjacencyEdges
  refine foldl_edges_pred_mem (pairwisePenaltyShape api rows) (adjacencyStep api)
    (pairCombos rows) ?_ (addRowNodes rows) ?_
  · intro g' lr hmem hg'
    exact adjacencyStep_shape api rows g' lr (pairCombos_mem rows lr hmem) hg'
  · intro e' he'
    rw [addRowNodes_edges] at he'
    cases he'

theorem penalty_pairwise_nonneg {G : Type} (api : GeomApi G)
    (hd : ∀ a b : G, 0 ≤ api.centroidDistDeg a b)
    (ra rb : NeighborhoodRow G) :
    0 ≤ 0.08 + pyMin 0.9 (centroid_distance_km api ra rb * 0.06) := by
  have hd0 : 0 ≤ centroid_distance_km api ra rb := by
    unfold centroid_distance_km
    exact mul_nonneg (hd _ _) (by norm_num)
  have hmin : 0 ≤ pyMin 0.9 (centroid_distance_km api ra rb * 0.06) :=
    pyMin_nonneg (by norm_num) (mul_nonneg hd0 (by norm_num))
  linarith

theorem penalty_fallback_nonneg {G : Type} (api : GeomApi G)
    (hd : ∀ a b : G, 0 ≤ api.centroidDistDeg a b)
    (ra rb : NeighborhoodRow G) :
    0 ≤ 0.16 + pyMin 1.2 (centroid_distance_km api ra rb * 0.08) := by
  have hd0 : 0 ≤ centroid_distance_km api ra rb := by
    unfold centroid_distance_km
    exact mul_nonneg (hd _ _) (by norm_num)
  have hmin : 0 ≤ pyMin 1.2 (centroid_distance_km api ra rb * 0.08) :=
    pyMin_nonneg (by norm_num) (mul_nonneg hd0 (by norm_num))
  linarith

theorem adjacencyStep_pen_nonneg {G : Type} (api : GeomApi G)
    (hd : ∀ a b : G, 0 ≤ api.centroidDistDeg a b) (g : NGraph)
    (lr : NeighborhoodRow G × NeighborhoodRow G)
    (hg : ∀ e ∈ g.edges, 0 ≤ e.traversal_penalty) :
    ∀ e ∈ (adjacencyStep api g lr).edges, 0 ≤ e.traversal_penalty := by
  unfold adjacencyStep
  split
  · apply add_edge_all g _ _ _ hg
    · intro e he hm
      exact penalty_pairwise_nonneg api hd lr.1 lr.2
    · exact penalty_pairwise_nonneg api hd lr.1 lr.2
  · exact hg

theorem isolateStep_pen_nonneg {G : Type} (api : GeomApi G)
    (hd : ∀ a b : G, 0 ≤ api.centroidDistDeg a b)
    (rows : List (NeighborhoodRow G)) (g : NGraph) (iso : String)
    (hg : ∀ e ∈ g.edges, 0 ≤ e.traversal_penalty) :
    ∀ e ∈ (isolateStep api rows g iso).edges, 0 ≤ e.traversal_penalty := by
  unfold isolateStep
  split
  · exact hg
  · split
    · exact hg
    · apply add_edge_all g _ _ _ hg
      · intro e he hm
        exact penalty_fallback_nonneg api hd _ _
      · exact penalty_fallback_nonneg api hd _ _

theorem build_penalty_nonneg {G : Type} (api : GeomApi G)
    (hd : ∀ a b : G, 0 ≤ api.centroidDistDeg a b) (c : ScoredCollection G)
    (g : NGraph) (hb : build_neighborhood_graph api c = Except.ok g) :
    ∀ e ∈ g.edges, 0 ≤ e.traversal_penalty := by
  unfold build_neighborhood_graph at hb
  rcases hrows : extract_neighborhood_rows api c.features with er | rows
  · rw [hrows] at hb
    simp at hb
  · rw [hrows] at hb
    by_cases hemp : rows.isEmpty
    · simp [hemp] at hb
    · simp only [hemp, Bool.false_eq_true, if_false, Except.ok.injEq] at hb
      subst hb
      have hadj : ∀ e ∈ (addAdjacencyEdges api (addRowNodes rows) rows).edges,
          0 ≤ e.traversal_penalty := by
        unfold addAdjacencyEdges
        refine foldl_edges_pred _ (adjacencyStep api)
          (fun g' lr hg' => adjacencyStep_pen_nonneg api hd g' lr hg') _ _ ?_
        intro e' he'
        rw [addRowNodes_edges] at he'
        cases he'
      unfold fallback_connect_isolates
      split
      · exact hadj
      · exact foldl_edges_pred _ (isolateStep api rows)
          (fun g' iso hg' => isolateStep_pen_nonneg api hd rows g' iso hg') _ _ hadj

theorem probOf_bounds (g : NGraph)
    (hg : ∀ p ∈ g.nodes, 0 ≤ p.2.probability ∧ p.2.probability ≤ 1)
    (name : String) : 0 ≤ probOf g name 0.5 ∧ probOf g name 0.5 ≤ 1 := by
  unfold probOf
  rcases hl : lookupAssoc name g.nodes with _ | attrs
  · show (0 : ℚ) ≤ 0.5 ∧ (0.5 : ℚ) ≤ 1
    norm_num
  · show 0 ≤ attrs.probability ∧ attrs.probability ≤ 1
    exact hg (name, attrs) (lookupAssoc_mem name attrs g.nodes hl)

theorem apply_edge_weights_mem (g : NGraph) :
    ∀ e ∈ (apply_edge_weights g).edges, ∃ e0 ∈ g.edges,
      e = { e0 with
        weight := some (e0.traversal_penalty +
          0.72 * ((probOf g e0.src 0.5 + probOf g e0.dst 0.5) / 2)) } := by
  unfold apply_edge_weights
  intro e he
  simp only [List.mem_map] at he
  obtain ⟨e0, he0, heq⟩ := he
  exact ⟨e0, he0, heq.symm⟩

/-- C7: every edge created by the pairwise adjacency pass carries
`traversal_penalty = 0.08 + min(0.9, distance_km * 0.06)` for its endpoint
row pair, and after `_apply_edge_weights` every edge of a built graph has
`weight = traversal_penalty + 0.72 * averageOf(endpoint risks)`; with
nonnegative centroid distances every such weight is nonnegative. -/
theorem C7_edge_penalty_and_weight {G : Type} (api : GeomApi G)
    (c : ScoredCollection G)
    (hd : ∀ a b : G, 0 ≤ api.centroidDistDeg a b) :
    (∀ rows, extract_neighborhood_rows api c.features = Except.ok rows →
      ∀ e ∈ (addAdjacencyEdges api (addRowNodes rows) rows).edges,
        pairwisePenaltyShape api rows e) ∧
    (∀ g, build_neighborhood_graph api c = Except.ok g →
      ∀ e ∈ (apply_edge_weights g).edges,
        e.weight = some (e.traversal_penalty +
          0.72 * ((probOf g e.src 0.5 + probOf g e.dst 0.5) / 2)) ∧
        0 ≤ e.weight.getD 0) := by
  constructor
  · intro rows _ e he
    exact addAdjacencyEdges_shape api rows e he
  · intro g hb e he
    obtain ⟨e0, he0, heq⟩ := apply_edge_weights_mem g e he
    subst heq
    refine ⟨rfl, ?_⟩
    have hpen := build_penalty_nonneg api hd c g hb e0 he0
    have hnodes := build_nodes_bounds api c g hb
    have hs := probOf_bounds g hnodes e0.src
    have ht := probOf_bounds g hnodes e0.dst
    show 0 ≤ e0.traversal_penalty +
      0.72 * ((probOf g e0.src 0.5 + probOf g e0.dst 0.5) / 2)
    have havg : 0 ≤ (probOf g e0.src 0.5 + probOf g e0.dst 0.5) / 2 := by
      linarith [hs.1, ht.1]
    have hprod : 0 ≤ (0.72 : ℚ) * ((probOf g e0.src 0.5 + probOf g e0.dst 0.5) / 2) :=
      mul_nonneg (by norm_num) havg
    linarith

set_option maxRecDepth 8192 in
/-- C7 witness: the concrete weighted edge satisfies the weight formula and
is nonnegative. -/
theorem C7_edge_penalty_and_weight_witness :
    demoWeightedEdge.weight =
      some (demoWeightedEdge.traversal_penalty +
        0.72 * ((probOf demoTwoGraph "Alpha" 0.5 + probOf demoTwoGraph "Beta" 0.5) / 2)) ∧
    0 ≤ demoWeightedEdge.weight.getD 0 := by
  have h :=
    (C7_edge_penalty_and_weight demoApiTouch demoTwoCollection
      (fun a b => le_refl (0 : ℚ))).2 demoTwoGraph (by with_unfolding_all rfl)
      demoWeightedEdge (by with_unfolding_all decide)
  exact h

/-! ## Claim theorems: same-node corridor -/

/-- C2 counterexample: for a same-origin/destination corridor the response
has no `corridor_cost` member at all (rather than a total traversal cost
of 0), so the claim that the total traversal cost is 0 is false as stated. -/
theorem C2_counterexample_same_node_omits_cost :
    corridorCostOf
      (compute_neighborhood_corridor demoApi demoScoredCollection "Alpha" "Alpha") =
      some none ∧
    corridorCostOf
      (compute_neighborhood_corridor demoApi demoScoredCollection "Alpha" "Alpha") ≠
      some (some 0) := by
  have h : corridorCostOf
      (compute_neighborhood_corridor demoApi demoScoredCollection "Alpha" "Alpha") =
      some none := by
    with_unfolding_all rfl
  refine ⟨h, ?_⟩
  rw [h]
  intro hc
  injection hc with hc
  exact Option.noConfusion hc

/-- C2 (amended): when origin and destination resolve to the same canonical
node, the corridor result is the one-node path whose single hop record and
aggregate risk both equal that node's stored risk probability, with hop
`step_weight` 0 — and the response omits the `corridor_cost` member instead
of reporting a total cost of 0. -/
theorem C2_amended_same_node_corridor {G : Type} (api : GeomApi G)
    (c : ScoredCollection G) (n1 n2 : String) (g0 : NGraph) (u : String)
    (hb : build_neighborhood_graph api c = Except.ok g0)
    (h1 : resolve_graph_node (apply_edge_weights g0) n1 = Except.ok u)
    (h2 : resolve_graph_node (apply_edge_weights g0) n2 = Except.ok u) :
    compute_neighborhood_corridor api c n1 n2 =
      Except.ok
        { from_neighborhood := u
          to_neighborhood := u
          ordered_neighborhoods := [u]
          per_hop_risk_scores :=
            [{ hop := 1
               neighborhood := u
               probability := probOf (apply_edge_weights g0) u 0.0
               risk_level := risk_level (probOf (apply_edge_weights g0) u 0.0)
               step_weight := 0 }]
          aggregate_corridor_risk := probOf (apply_edge_weights g0) u 0.0
          corridor_cost := none
          narrative_guidance :=
            build_guidance [u] [probOf (apply_edge_weights g0) u 0.0]
              (probOf (apply_edge_weights g0) u 0.0) } := by
  unfold compute_neighborhood_corridor
  simp only [hb, h1, h2]
  simp

/-- C2 witness: the amended behaviour at a concrete collection, with the
destination name differing only in case and whitespace. -/
theorem C2_amended_same_node_witness :
    compute_neighborhood_corridor demoApi demoScoredCollection "Alpha" "  ALPHA " =
      Except.ok
        { from_neighborhood := "Alpha"
          to_neighborhood := "Alpha"
          ordered_neighborhoods := ["Alpha"]
          per_hop_risk_scores :=
            [{ hop := 1
               neighborhood := "Alpha"
               probability := 0.5
               risk_level := "medium"
               step_weight := 0 }]
          aggregate_corridor_risk := 0.5
          corridor_cost := none
          narrative_guidance := build_guidance ["Alpha"] [0.5] 0.5 } := by
  have h := C2_amended_same_node_corridor demoApi demoScoredCollection "Alpha" "  ALPHA "
    demoOneGraph "Alpha" (by with_unfolding_all rfl) (by with_unfolding_all rfl)
    (by with_unfolding_all rfl)
  rw [h]
  with_unfolding_all rfl

/-! ## Claim theorems: orchestrator -/

theorem get_layer_no_fresh_hit (svc : MapDataService) (now : ℚ)
    (client : FetchClient) (layer_key : String) (force_refresh : Bool) (dw : DiskWrite)
    (hnohit :
      freshHit (initialLookup svc now ("layer::" ++ layer_key) force_refresh).1 = false) :
    get_layer svc now client layer_key force_refresh dw =
      refreshPath (staleProbe svc now ("layer::" ++ layer_key) force_refresh).2 now client
        layer_key ("layer::" ++ layer_key) dw
        (staleProbe svc now ("layer::" ++ layer_key) force_refresh).1 := by
  unfold get_layer staleProbe
  rcases hst1 : initialLookup svc now ("layer::" ++ layer_key) force_refresh with
    ⟨cached, svc1⟩
  rw [hst1] at hnohit
  cases cached with
  | none => simp [hst1]
  | some c =>
    have hc : c.fresh = false := hnohit
    simp [hst1, hc]

/-- C3: when the live fetch-and-normalize attempt fails and the initial
lookup was not a fresh hit, `get_layer` serves any usable cached copy (the
stale candidate) with `stale=true`, `cache_event="stale_served"` and a
nonempty errors list, raising nothing; with no usable cached copy at all it
raises the `MapDataUnavailableError` naming the layer key — so a layer is
reported unavailable only when the cache holds no usable copy. -/
theorem C3_stale_fallback_or_unavailable (svc : MapDataService) (now : ℚ)
    (client : FetchClient) (layer_key : String) (force_refresh : Bool) (dw : DiskWrite)
    (e : PyError) (hf : fetch_live_layer client layer_key = Except.error e)
    (hnohit :
      freshHit (initialLookup svc now ("layer::" ++ layer_key) force_refresh).1 = false) :
    (∀ sc, (staleProbe svc now ("layer::" ++ layer_key) force_refresh).1 = some sc →
      get_layer svc now client layer_key force_refresh dw =
        (Except.ok (staleResult layer_key sc (pyErrMsg e)
            (failedSvc (staleProbe svc now ("layer::" ++ layer_key) force_refresh).2
              layer_key).cache.ttl_seconds),
         failedSvc (staleProbe svc now ("layer::" ++ layer_key) force_refresh).2
           layer_key) ∧
      (∀ msg ttl, (staleResult layer_key sc msg ttl).meta.stale = true ∧
        (staleResult layer_key sc msg ttl).meta.cache_event = "stale_served" ∧
        (staleResult layer_key sc msg ttl).errors ≠ [])) ∧
    ((staleProbe svc now ("layer::" ++ layer_key) force_refresh).1 = none →
      get_layer svc now client layer_key force_refresh dw =
        (Except.error (MapError.unavailable
          ("Unable to fetch layer \x27" ++ layer_key ++
            "\x27 and no stale cache available")),
         failedSvc (staleProbe svc now ("layer::" ++ layer_key) force_refresh).2
           layer_key)) := by
  have hrun := get_layer_no_fresh_hit svc now client layer_key force_refresh dw hnohit
  constructor
  · intro sc hsc
    refine ⟨?_, ?_⟩
    · rw [hrun]
      unfold refreshPath failPath
      simp only [hf, hsc]
    · intro msg ttl
      exact ⟨rfl, rfl, by simp [staleResult]⟩
  · intro hsc
    rw [hrun]
    unfold refreshPath failPath
    simp only [hf, hsc]

/-- C3 witness: with an empty cache and a failing upstream, `get_layer`
raises the unavailable error naming the layer key. -/
theorem C3_stale_fallback_witness :
    get_layer demoSvc0 100 demoFailClient "sidewalks" false DiskWrite.succeeds =
      (Except.error (MapError.unavailable
        ("Unable to fetch layer \x27" ++ "sidewalks" ++
          "\x27 and no stale cache available")),
       failedSvc (staleProbe demoSvc0 100 ("layer::" ++ "sidewalks") false).2
         "sidewalks") :=
  (C3_stale_fallback_or_unavailable demoSvc0 100 demoFailClient "sidewalks" false
    DiskWrite.succeeds
    (PyError.fetchError "upstream down") (by with_unfolding_all rfl)
    (by with_unfolding_all rfl)).2 (by with_unfolding_all rfl)

theorem load_disk_entry_none (s : CacheState) (key : String)
    (hdisk : lookupAssoc (sanitizeKey key) s.disk = none) :
    load_disk_entry s key = none := by
  unfold load_disk_entry
  rw [hdisk]

theorem probeEntry_none (s : CacheState) (key : String)
    (hmem : lookupAssoc key s.memory = none)
    (hdisk : lookupAssoc (sanitizeKey key) s.disk = none) :
    probeEntry s key = (none, "memory", s) := by
  unfold probeEntry
  rw [hmem, load_disk_entry_none s key hdisk]

theorem cache_get_miss (s : CacheState) (now : ℚ) (key : String) (allow : Bool)
    (hmem : lookupAssoc key s.memory = none)
    (hdisk : lookupAssoc (sanitizeKey key) s.disk = none) :
    cache_get s now key allow =
      (none, { s with stats := { s.stats with misses := s.stats.misses + 1 } }) := by
  unfold cache_get
  rw [probeEntry_none s key hmem hdisk]

/-- C10: a layer key outside the static config table with no cached entry
does not get a distinguishable unknown-layer error: the `KeyError` from the
fetch step is caught by the generic handler, the call bumps
`refresh_failures` and the per-layer error counter, and the same
`MapDataUnavailableError` used for upstream fetch failures is raised. -/
theorem C10_unknown_layer_generic_failure (svc : MapDataService) (now : ℚ)
    (client : FetchClient) (layer_key : String) (force_refresh : Bool) (dw : DiskWrite)
    (hcfg : lookupAssoc layer_key LAYER_CONFIG = none)
    (hmem : lookupAssoc ("layer::" ++ layer_key) svc.cache.memory = none)
    (hdisk : lookupAssoc (sanitizeKey ("layer::" ++ layer_key)) svc.cache.disk = none) :
    fetch_live_layer client layer_key =
      Except.error (PyError.keyError ("Unknown layer key: " ++ layer_key)) ∧
    (get_layer svc now client layer_key force_refresh dw).1 =
      Except.error (MapError.unavailable
        ("Unable to fetch layer \x27" ++ layer_key ++
          "\x27 and no stale cache available")) ∧
    (get_layer svc now client layer_key force_refresh
        dw).2.cache.stats.refresh_failures =
      svc.cache.stats.refresh_failures + 1 ∧
    lookupAssoc layer_key
        (get_layer svc now client layer_key force_refresh dw).2.layer_error_count =
      some ((lookupAssoc layer_key svc.layer_error_count).getD 0 + 1) := by
  have hfetch : fetch_live_layer client layer_key =
      Except.error (PyError.keyError ("Unknown layer key: " ++ layer_key)) := by
    unfold fetch_live_layer
    rw [hcfg]
  have hmiss1 := cache_get_miss svc.cache now ("layer::" ++ layer_key) true hmem hdisk
  have hmiss2 := cache_get_miss
    { svc.cache with
      stats := { svc.cache.stats with misses := svc.cache.stats.misses + 1 } }
    now ("layer::" ++ layer_key) true hmem hdisk
  have hnohit :
      freshHit (initialLookup svc now ("layer::" ++ layer_key) force_refresh).1 = false := by
    unfold initialLookup
    cases force_refresh
    · simp [hmiss1, freshHit]
    · simp [freshHit]
  have hst2 : (staleProbe svc now ("layer::" ++ layer_key) force_refresh).1 = none ∧
      (staleProbe svc now ("layer::" ++ layer_key)
          force_refresh).2.cache.stats.refresh_failures =
        svc.cache.stats.refresh_failures ∧
      (staleProbe svc now ("layer::" ++ layer_key) force_refresh).2.layer_error_count =
        svc.layer_error_count := by
    unfold staleProbe initialLookup staleFallbackLookup
    cases force_refresh
    · simp [hmiss1, hmiss2]
    · simp [hmiss1]
  have hrun := get_layer_no_fresh_hit svc now client layer_key force_refresh dw hnohit
  have hfinal : get_layer svc now client layer_key force_refresh dw =
      (Except.error (MapError.unavailable
        ("Unable to fetch layer \x27" ++ layer_key ++
          "\x27 and no stale cache available")),
       failedSvc (staleProbe svc now ("layer::" ++ layer_key) force_refresh).2
         layer_key) := by
    rw [hrun]
    unfold refreshPath failPath
    simp only [hfetch, hst2.1]
  refine ⟨hfetch, ?_, ?_, ?_⟩
  · rw [hfinal]
  · rw [hfinal]
    show (failedSvc (staleProbe svc now ("layer::" ++ layer_key) force_refresh).2
        layer_key).cache.stats.refresh_failures =
      svc.cache.stats.refresh_failures + 1
    unfold failedSvc bumpLayerError mark_refresh_failure
    simp [hst2.2.1]
  · rw [hfinal]
    show lookupAssoc layer_key
        (failedSvc (staleProbe svc now ("layer::" ++ layer_key) force_refresh).2
          layer_key).layer_error_count =
      some ((lookupAssoc layer_key svc.layer_error_count).getD 0 + 1)
    unfold failedSvc bumpLayerError
    simp [lookupAssoc_insertAssoc_self, hst2.2.2]

/-- C10 witness: an unknown layer key on an empty cache yields the generic
unavailable failure with both counters bumped. -/
theorem C10_unknown_layer_witness :
    fetch_live_layer demoFailClient "nope" =
      Except.error (PyError.keyError ("Unknown layer key: " ++ "nope")) ∧
    (get_layer demoSvc0 100 demoFailClient "nope" false DiskWrite.succeeds).1 =
      Except.error (MapError.unavailable
        ("Unable to fetch layer \x27" ++ "nope" ++
          "\x27 and no stale cache available")) ∧
    (get_layer demoSvc0 100 demoFailClient "nope" false
        DiskWrite.succeeds).2.cache.stats.refresh_failures =
      demoSvc0.cache.stats.refresh_failures + 1 ∧
    lookupAssoc "nope"
        (get_layer demoSvc0 100 demoFailClient "nope" false
          DiskWrite.succeeds).2.layer_error_count =
      some ((lookupAssoc "nope" demoSvc0.layer_error_count).getD 0 + 1) :=
  C10_unknown_layer_generic_failure demoSvc0 100 demoFailClient "nope" false
    DiskWrite.succeeds
    (by with_unfolding_all rfl) (by with_unfolding_all rfl) (by with_unfolding_all rfl)

end Observatory
